import Mathlib

/-!
Shallow embedding of `obj_observe/core.py` (the obj-observe library) and a
verification of its specification claims.

The library has two engines sharing one notification algorithm:

* `ObservableDict` — a dict subclass whose `__setitem__` guards recursion per
  key, captures the old value, performs the write, then fires each observer of
  the key over a snapshot of the observer list.
* attribute observation — `add_observer` monkey-patches the owning class's
  `__setattr__` once (`new_setattr`), keeps per-instance observer tables and
  guard tables, and a per-class refcount of observed instances that drives
  teardown (`remove_observers`).

Python values are modelled by `PyVal` (with `PyVal.none` for Python `None`).
Callables are identified by a natural-number id; an environment `Env` gives
each id its behaviour (`body`, a small action language `CbAct`), whether it is
a bound method (stored as a `WeakMethod`), whether its weak target is alive at
notification time, and its truthiness (`observe` tests `if callback:`).
Observer callbacks may themselves write keys, add or remove observers, or
raise; nested writes consume `fuel`, so every interpreter is structurally
recursive and executable.  Exceptions are modelled by threading the state
together with a boolean `exn` flag (Python state changes made before an
exception persist).  The model is single-threaded: lock acquisition in
`new_setattr` is a no-op, which is faithful for sequential executions.

Only plain `__dict__`-carrying instances are modelled for the attribute
engine (the slotted side-map fallback of `core.py` is out of scope); its
bookkeeping attributes `__observers__` / `__is_observing__` are modelled as
separate record fields, so observed attribute names range over ordinary data
attributes.
-/

namespace ObjObserve

/-- Python runtime values, with `PyVal.none` for Python `None`. -/
inductive PyVal where
  | none : PyVal
  | int : Int → PyVal
  | str : String → PyVal
  | bool : Bool → PyVal
deriving DecidableEq, Repr

/-- One observer invocation: (callback id, old value, new value). -/
abbrev Call := Nat × PyVal × PyVal

/-- A stored observer entry: either the callable itself or a `WeakMethod`
wrapper produced by `_normalize_callback` for bound methods. -/
inductive ObserverRef where
  | strong (c : Nat) : ObserverRef
  | weakMethod (c : Nat) : ObserverRef
deriving DecidableEq, Repr

/-- The callable id underlying an observer entry. -/
def refId : ObserverRef → Nat
  | .strong c => c
  | .weakMethod c => c

/-- Behaviour of an observer callback, as a small action language: do nothing,
raise an exception, write a key/attribute on the triggering entity, register a
further observer, or remove the observers of a key. -/
inductive CbAct where
  | nop : CbAct
  | raiseExc : CbAct
  | setK (k : String) (v : PyVal) : CbAct
  | addObs (k : String) (c : Nat) : CbAct
  | delObsKey (k : String) : CbAct
  | seq (a b : CbAct) : CbAct
deriving DecidableEq, Repr

/-- Environment giving each callable id its semantics. -/
structure Env where
  body : Nat → CbAct
  isBound : Nat → Bool
  alive : Nat → Bool
  truthy : Nat → Bool

/-- Model of `_normalize_callback` (core.py lines 65-75): bound methods are
stored as `WeakMethod`, plain callables directly. -/
def normalizeCallback (env : Env) (c : Nat) : ObserverRef :=
  if env.isBound c then .weakMethod c else .strong c

/-! Association lists model Python dicts: insertion order preserved, update in
place, new keys appended at the end. -/

/-- Lookup in an association list (Python `d.get(k)` / `k in d`). -/
def alookup {α β : Type} [DecidableEq α] : List (α × β) → α → Option β
  | [], _ => Option.none
  | (k, v) :: rest, a => if k = a then some v else alookup rest a

/-- Update-or-append (Python `d[k] = v`). -/
def aset {α β : Type} [DecidableEq α] : List (α × β) → α → β → List (α × β)
  | [], a, b => [(a, b)]
  | (k, v) :: rest, a, b => if k = a then (k, b) :: rest else (k, v) :: aset rest a b

/-- Key removal (Python `del d[k]` / `d.pop(k, None)`). -/
def aerase {α β : Type} [DecidableEq α] : List (α × β) → α → List (α × β)
  | [], _ => []
  | (k, v) :: rest, a => if k = a then rest else (k, v) :: aerase rest a

/-- Model of `observers.setdefault(key, []).append(r)`. -/
def obsAppend (m : List (String × List ObserverRef)) (k : String) (r : ObserverRef) :
    List (String × List ObserverRef) :=
  match alookup m k with
  | some l => aset m k (l ++ [r])
  | Option.none => m ++ [(k, [r])]

/-- Model of Python `list.remove` as an `Option`: remove the first element
satisfying `p`, or `none` when absent (`ValueError`). -/
def removeFirst {β : Type} (p : β → Bool) : List β → Option (List β)
  | [] => Option.none
  | x :: rest => if p x then some rest else (removeFirst p rest).map (x :: ·)

/-- Python `==` between a stored observer entry and a raw callable: a directly
stored callable equals itself; a `WeakMethod` never equals a raw callable. -/
def rawEq (c : Nat) : ObserverRef → Bool
  | .strong j => j == c
  | .weakMethod _ => false

/-- Python `==` between a stored entry and a freshly normalized one: direct
callables compare by identity; two `WeakMethod`s are equal when both targets
are alive and are the same bound method. -/
def refEq (env : Env) : ObserverRef → ObserverRef → Bool
  | .strong j, .strong k => j == k
  | .weakMethod j, .weakMethod k => env.alive j && env.alive k && (j == k)
  | _, _ => false

/-! # The container engine: `ObservableDict` -/

/-- State of an `ObservableDict`: the underlying dict entries, the
`__observers` table and the `__is_observing` recursion-guard table. -/
structure ODict where
  data : List (String × PyVal)
  observers : List (String × List ObserverRef)
  isObserving : List (String × Bool)
deriving DecidableEq, Repr

/-- Result of a container operation: new state, trace of observer calls made,
and whether an exception propagated. -/
abbrev ResD := ODict × List Call × Bool

/-- Model of `ObservableDict._add_observer` (core.py lines 119-120). -/
def odAddObserver (env : Env) (d : ODict) (key : String) (c : Nat) : ODict :=
  { d with observers := obsAppend d.observers key (normalizeCallback env c) }

/-- Model of `ObservableDict._remove_observers` (core.py lines 122-126). -/
def odRemoveObserversInner (d : ODict) (key : Option String) : ODict :=
  match key with
  | Option.none => { d with observers := [] }
  | some k => { d with observers := aerase d.observers k }

/-- Execution of a callback body against an `ObservableDict`, parameterized by
the interpretation `setI` of a nested item write (tied to fuel below). -/
def odExecL (env : Env) (setI : ODict → String → PyVal → ResD) :
    CbAct → ODict → ResD
  | .nop, st => (st, [], false)
  | .raiseExc, st => (st, [], true)
  | .setK k v, st => setI st k v
  | .addObs k c, st => (odAddObserver env st k c, [], false)
  | .delObsKey k, st => (odRemoveObserversInner st (some k), [], false)
  | .seq a b, st =>
    let r1 := odExecL env setI a st
    if r1.2.2 then r1
    else
      let r2 := odExecL env setI b r1.1
      (r2.1, r1.2.1 ++ r2.2.1, r2.2.2)

/-- The notification loop of `__setitem__` (core.py lines 107-115): iterate a
snapshot of the observer list; a `WeakMethod` whose target was reclaimed is
skipped; an exception from a callback aborts the remaining notifications. -/
def odNotifyL (env : Env) (setI : ODict → String → PyVal → ResD) :
    List ObserverRef → PyVal → PyVal → ODict → ResD
  | [], _, _, st => (st, [], false)
  | r :: rest, oldValue, value, st =>
    match r with
    | .weakMethod c =>
      if env.alive c then
        let r1 := odExecL env setI (env.body c) st
        if r1.2.2 then (r1.1, (c, oldValue, value) :: r1.2.1, true)
        else
          let r2 := odNotifyL env setI rest oldValue value r1.1
          (r2.1, (c, oldValue, value) :: r1.2.1 ++ r2.2.1, r2.2.2)
      else odNotifyL env setI rest oldValue value st
    | .strong c =>
      let r1 := odExecL env setI (env.body c) st
      if r1.2.2 then (r1.1, (c, oldValue, value) :: r1.2.1, true)
      else
        let r2 := odNotifyL env setI rest oldValue value r1.1
        (r2.1, (c, oldValue, value) :: r1.2.1 ++ r2.2.1, r2.2.2)

/-- Lines 95-96 of `__setitem__`: ensure a guard entry exists for the key
(`if key not in self.__is_observing: self.__is_observing[key] = False`). -/
def odEnsureGuard (st : ODict) (key : String) : ODict :=
  if (alookup st.isObserving key).isSome then st
  else { st with isObserving := st.isObserving ++ [(key, false)] }

/-- Model of `ObservableDict.__setitem__` (core.py lines 94-116),
parameterized by the interpretation of nested writes made by callbacks. -/
def odSetItemCore (env : Env) (setI : ODict → String → PyVal → ResD)
    (st : ODict) (key : String) (value : PyVal) : ResD :=
  let st := odEnsureGuard st key
  -- lines 98-100: reentrant write: apply silently, no notification
  if (alookup st.isObserving key).getD false then
    ({ st with data := aset st.data key value }, [], false)
  else
    -- lines 102-104: set guard, capture old value (`self.get` gives None when
    -- the key is absent), perform the underlying write
    let st := { st with isObserving := aset st.isObserving key true }
    let oldValue := (alookup st.data key).getD PyVal.none
    let st := { st with data := aset st.data key value }
    -- lines 106-116: notify over a snapshot, then clear the guard; the clear
    -- is skipped when a callback raised (no try/finally in the source)
    match alookup st.observers key with
    | Option.none => ({ st with isObserving := aset st.isObserving key false }, [], false)
    | some snapshot =>
      let r := odNotifyL env setI snapshot oldValue value st
      if r.2.2 then r
      else ({ r.1 with isObserving := aset r.1.isObserving key false }, r.2.1, false)

/-- Fuel-indexed `__setitem__`: `fuel` bounds the nesting depth of item writes
performed from inside callbacks; an exhausted nested write is reported as an
exception. -/
def odSetItem (env : Env) : Nat → ODict → String → PyVal → ResD
  | 0, st, key, value =>
    odSetItemCore env (fun st _ _ => (st, [], true)) st key value
  | fuel + 1, st, key, value =>
    odSetItemCore env (fun st k v => odSetItem env fuel st k v) st key value

/-- Model of `remove_observers` on an `ObservableDict` (core.py lines
282-289): report whether anything was present, then delegate to
`_remove_observers`. -/
def odRemoveObservers (d : ODict) (attr : Option String) : ODict × Bool :=
  let removed := match attr with
    | Option.none => !d.observers.isEmpty
    | some a => (alookup d.observers a).isSome
  (odRemoveObserversInner d attr, removed)

/-- Model of `remove_observer` on an `ObservableDict` (core.py lines
357-372): try removing the raw callable, then its normalized form; the dict
path never deletes emptied keys and never touches guards. -/
def odRemoveObserver (env : Env) (d : ODict) (attr : String) (c : Nat) : ODict × Bool :=
  -- line 361: `if mapping and attr in mapping`
  if d.observers.isEmpty then (d, false)
  else
    match alookup d.observers attr with
    | Option.none => (d, false)
    | some lst =>
      match removeFirst (rawEq c) lst with
      | some lst' => ({ d with observers := aset d.observers attr lst' }, true)
      | Option.none =>
        match removeFirst (fun r => refEq env r (normalizeCallback env c)) lst with
        | some lst' => ({ d with observers := aset d.observers attr lst' }, true)
        | Option.none => (d, false)

/-! # The attribute engine: class patching, per-instance tables, refcount -/

/-- Per-instance state of an observed-capable object with a `__dict__`:
its ordinary data attributes, whether the bookkeeping attributes
`__observers__` / `__is_observing__` have ever been created on it (they are
cleared but never deleted by removal, which is what the source's
`hasattr(obj, '__observers__')` checks observe), and their contents. -/
structure Inst where
  attrs : List (String × PyVal)
  hasObservers : Bool
  observers : List (String × List ObserverRef)
  hasIsObserving : Bool
  isObserving : List (String × Bool)
deriving DecidableEq, Repr

/-- Per-class interception state: whether `__original_setattr__` is saved
(equivalently, whether `__setattr__` is currently `new_setattr`), the
`__observe_refcount__` attribute (`none` when deleted), and whether the
`__observe_lock__` attribute exists on the class. -/
structure Cls where
  patched : Bool
  refcount : Option Int
  hasLock : Bool
deriving DecidableEq, Repr

/-- A class together with its instances, identified by numeric ids. -/
structure ObjWorld where
  cls : Cls
  insts : List (Nat × Inst)
deriving DecidableEq, Repr

/-- Result of an attribute operation: new world, trace of observer calls, and
whether an exception propagated. -/
abbrev ResW := ObjWorld × List Call × Bool

/-- A never-touched instance (no data attributes, no bookkeeping). -/
def freshInst : Inst :=
  { attrs := [], hasObservers := false, observers := [],
    hasIsObserving := false, isObserving := [] }

/-- Read an instance (unmapped ids denote fresh instances). -/
def getInst (w : ObjWorld) (i : Nat) : Inst :=
  (alookup w.insts i).getD freshInst

/-- Write an instance back into the world. -/
def setInst (w : ObjWorld) (i : Nat) (inst : Inst) : ObjWorld :=
  { w with insts := aset w.insts i inst }

/-- The original, unpatched `object.__setattr__`: plain attribute write. -/
def plainSet (w : ObjWorld) (i : Nat) (name : String) (v : PyVal) : ObjWorld :=
  setInst w i { getInst w i with attrs := aset (getInst w i).attrs name v }

/-- Model of `add_observer` for a `__dict__`-carrying instance (core.py lines
166-273).  The first registration on an instance creates fresh tables via the
assignments on lines 178-179 (these route through `new_setattr` when the class
is already patched, but their net effect is exactly fresh tables and they fire
no observers); the callback is appended (lines 215-217); the class patch is
installed once (lines 221-224, 268); finally the refcount is incremented only
for a first-time instance (lines 271-272). -/
def addObserverObj (env : Env) (w : ObjWorld) (i : Nat) (attr : String) (c : Nat) :
    ObjWorld :=
  let inst := getInst w i
  let firstTime := !inst.hasObservers
  let inst := if inst.hasObservers then inst
              else { inst with hasObservers := true, observers := [],
                               hasIsObserving := true, isObserving := [] }
  let inst := { inst with observers := obsAppend inst.observers attr (normalizeCallback env c) }
  let w := setInst w i inst
  let w := if w.cls.patched then w
           else { w with cls := { patched := true, refcount := some 0, hasLock := true } }
  if firstTime then
    { w with cls := { w.cls with refcount := w.cls.refcount.map (· + 1) } }
  else w

/-- Model of `remove_observers` for a `__dict__`-carrying instance (core.py
lines 275-348).  An instance never observed has no `__observers__` attribute;
the slotted side-map lookup (lines 291-329) then finds nothing and line 329
returns `False`.  Otherwise the requested observers are dropped (lines
331-337; Python tests `if attr:`, so an empty attribute string means
"remove everything"), and whenever the instance's observer table is now empty
and the class still has a refcount attribute, the refcount is decremented and
the patch is torn down once it reaches zero (lines 339-347) — note the
decrement happens even if this call removed nothing, and the teardown deletes
`__original_setattr__` and `__observe_refcount__` but not `__observe_lock__`. -/
def removeObserversObj (w : ObjWorld) (i : Nat) (attr : Option String) :
    ObjWorld × Bool :=
  let inst := getInst w i
  if !inst.hasObservers then (w, false)
  else
    let perKey := match attr with
      | some a => if a.isEmpty then Option.none else some a
      | Option.none => Option.none
    let pair := match perKey with
      | some a =>
        if (alookup inst.observers a).isSome then (aerase inst.observers a, true)
        else (inst.observers, false)
      | Option.none => (([] : List (String × List ObserverRef)), !inst.observers.isEmpty)
    let inst := { inst with observers := pair.1 }
    let w := setInst w i inst
    if pair.1.isEmpty && w.cls.refcount.isSome then
      let rc := (w.cls.refcount.getD 0) - 1
      if rc ≤ 0 && w.cls.patched then
        ({ w with cls := { patched := false, refcount := Option.none,
                           hasLock := w.cls.hasLock } }, pair.2)
      else
        ({ w with cls := { w.cls with refcount := some rc } }, pair.2)
    else (w, pair.2)

/-- Model of `remove_observer` for a `__dict__`-carrying instance (core.py
lines 351-419, object branch): try removing the raw callable, then its
normalized form; on success an emptied key is deleted and, when the whole
table became empty, `remove_observers(obj)` is invoked for the refcount and
teardown bookkeeping.  Any failure returns the world unchanged with `False`. -/
def removeObserverObj (env : Env) (w : ObjWorld) (i : Nat) (attr : String) (c : Nat) :
    ObjWorld × Bool :=
  let inst := getInst w i
  if !inst.hasObservers then (w, false)
  else
    match alookup inst.observers attr with
    | Option.none => (w, false)
    | some lst =>
      if lst.isEmpty then (w, false)
      else
        let removedList :=
          match removeFirst (rawEq c) lst with
          | some lst' => some lst'
          | Option.none => removeFirst (fun r => refEq env r (normalizeCallback env c)) lst
        match removedList with
        | Option.none => (w, false)
        | some lst' =>
          if lst'.isEmpty then
            let inst := { inst with observers := aerase inst.observers attr }
            let w := setInst w i inst
            if inst.observers.isEmpty then ((removeObserversObj w i Option.none).1, true)
            else (w, true)
          else
            (setInst w i { inst with observers := aset inst.observers attr lst' }, true)

/-- Execution of a callback body against the attribute world; callbacks act on
the instance that triggered them.  `setA` is the interpretation of a nested
attribute write (tied to fuel below). -/
def objExecL (env : Env) (setA : ObjWorld → Nat → String → PyVal → ResW) :
    CbAct → ObjWorld → Nat → ResW
  | .nop, w, _ => (w, [], false)
  | .raiseExc, w, _ => (w, [], true)
  | .setK k v, w, i => setA w i k v
  | .addObs k c, w, i => (addObserverObj env w i k c, [], false)
  | .delObsKey k, w, i => ((removeObserversObj w i (some k)).1, [], false)
  | .seq a b, w, i =>
    let r1 := objExecL env setA a w i
    if r1.2.2 then r1
    else
      let r2 := objExecL env setA b r1.1 i
      (r2.1, r1.2.1 ++ r2.2.1, r2.2.2)

/-- The notification loop of `new_setattr` (core.py lines 257-265). -/
def objNotifyL (env : Env) (setA : ObjWorld → Nat → String → PyVal → ResW) :
    List ObserverRef → PyVal → PyVal → ObjWorld → Nat → ResW
  | [], _, _, w, _ => (w, [], false)
  | r :: rest, oldValue, value, w, i =>
    match r with
    | .weakMethod c =>
      if env.alive c then
        let r1 := objExecL env setA (env.body c) w i
        if r1.2.2 then (r1.1, (c, oldValue, value) :: r1.2.1, true)
        else
          let r2 := objNotifyL env setA rest oldValue value r1.1 i
          (r2.1, (c, oldValue, value) :: r1.2.1 ++ r2.2.1, r2.2.2)
      else objNotifyL env setA rest oldValue value w i
    | .strong c =>
      let r1 := objExecL env setA (env.body c) w i
      if r1.2.2 then (r1.1, (c, oldValue, value) :: r1.2.1, true)
      else
        let r2 := objNotifyL env setA rest oldValue value r1.1 i
        (r2.1, (c, oldValue, value) :: r1.2.1 ++ r2.2.1, r2.2.2)

/-- Lines 244-245 of `new_setattr`: create `__is_observing__` on the instance
if it does not exist yet. -/
def objEnsureIsObserving (inst : Inst) : Inst :=
  if inst.hasIsObserving then inst
  else { inst with hasIsObserving := true, isObserving := [] }

/-- Model of one attribute assignment: when the class is unpatched,
`__setattr__` is the original plain write; otherwise `new_setattr` runs
(core.py lines 226-268): fall back to the original write when the lock
attribute is missing (lines 227-229), ensure `__is_observing__` exists (lines
244-245), short-circuit a reentrant write (lines 249-251), else set the
guard, capture the old value (`getattr(self, name, None)`), write, notify
over a snapshot and clear the guard — the clear being skipped when a callback
raised. -/
def objSetAttrCore (env : Env) (setA : ObjWorld → Nat → String → PyVal → ResW)
    (w : ObjWorld) (i : Nat) (name : String) (value : PyVal) : ResW :=
  if w.cls.patched then
    if w.cls.hasLock then
      let inst := objEnsureIsObserving (getInst w i)
      let observersMap := if inst.hasObservers then inst.observers
                          else ([] : List (String × List ObserverRef))
      let w := setInst w i inst
      if (alookup inst.isObserving name).getD false then
        (plainSet w i name value, [], false)
      else
        let inst := { inst with isObserving := aset inst.isObserving name true }
        let oldValue := (alookup inst.attrs name).getD PyVal.none
        let inst := { inst with attrs := aset inst.attrs name value }
        let w := setInst w i inst
        match alookup observersMap name with
        | Option.none =>
          (setInst w i { inst with isObserving := aset inst.isObserving name false }, [], false)
        | some snapshot =>
          let r := objNotifyL env setA snapshot oldValue value w i
          if r.2.2 then r
          else
            let inst' := getInst r.1 i
            (setInst r.1 i { inst' with isObserving := aset inst'.isObserving name false },
             r.2.1, false)
    else (plainSet w i name value, [], false)
  else (plainSet w i name value, [], false)

/-- Fuel-indexed attribute assignment: `fuel` bounds the nesting depth of
attribute writes performed from inside callbacks. -/
def objSetAttr (env : Env) : Nat → ObjWorld → Nat → String → PyVal → ResW
  | 0, w, i, name, value =>
    objSetAttrCore env (fun w _ _ _ => (w, [], true)) w i name value
  | fuel + 1, w, i, name, value =>
    objSetAttrCore env (fun w i k v => objSetAttr env fuel w i k v) w i name value

/-! # The `observe` entry point -/

/-- An entity passed to `observe`: a plain dict, an `ObservableDict`, or an
object (a world plus the instance's id). -/
inductive Target where
  | plainDict (d : List (String × PyVal)) : Target
  | obsDict (d : ODict) : Target
  | obj (w : ObjWorld) (i : Nat) : Target
deriving DecidableEq, Repr

/-- Dispatch of `add_observer` (core.py lines 166-170) over entity kinds.  A
plain dict can never reach this point through `observe`, which wraps it
first; that arm is therefore the identity. -/
def targetAdd (env : Env) (t : Target) (attr : String) (c : Nat) : Target :=
  match t with
  | .plainDict d => .plainDict d
  | .obsDict d => .obsDict (odAddObserver env d attr c)
  | .obj w i => .obj (addObserverObj env w i attr c) i

/-- Result of `observe`: either the (possibly wrapped) entity with the
callback registered, or the decorator closure over the (possibly wrapped)
entity when no truthy callback was supplied. -/
inductive ObserveResult where
  | registered (t : Target) : ObserveResult
  | decorator (t : Target) : ObserveResult
deriving DecidableEq, Repr

/-- Model of `observe` (core.py lines 141-163): a plain dict is wrapped into a
fresh `ObservableDict` pre-populated with its entries; then `if callback:`
(truthiness, not presence) decides between immediate registration and
returning the decorator. -/
def observe (env : Env) (t : Target) (attr : String) (cb : Option Nat) :
    ObserveResult :=
  let t := match t with
    | .plainDict d => .obsDict { data := d, observers := [], isObserving := [] }
    | x => x
  match cb with
  | some c => if env.truthy c then .registered (targetAdd env t attr c) else .decorator t
  | Option.none => .decorator t

/-! # Derived notions used by the verification -/

/-- The trace produced by notifying a snapshot whose callbacks make no calls
of their own: one entry per entry of the snapshot, in order, skipping weak
methods whose target is dead. -/
def aliveTrace (env : Env) (oldValue value : PyVal) : List ObserverRef → List Call
  | [] => []
  | .strong c :: rest => (c, oldValue, value) :: aliveTrace env oldValue value rest
  | .weakMethod c :: rest =>
    if env.alive c then (c, oldValue, value) :: aliveTrace env oldValue value rest
    else aliveTrace env oldValue value rest

/-- Callback bodies that only manage registrations (or do nothing): they never
write a key, never raise, and produce no trace of their own. -/
def regOnly : CbAct → Bool
  | .nop => true
  | .addObs _ _ => true
  | .delObsKey _ => true
  | .seq a b => regOnly a && regOnly b
  | _ => false

/-- Invariant holding on the triggering instance while one of its attributes
is being notified: its bookkeeping attributes exist and the guard flag of the
attribute `K` is set. -/
def ObjGuardInv (w : ObjWorld) (i : Nat) (K : String) : Prop :=
  (getInst w i).hasObservers = true ∧ (getInst w i).hasIsObserving = true ∧
  alookup (getInst w i).isObserving K = some true

/-- The number of distinct instances of the class currently holding at least
one observer — what `__observe_refcount__` is documented to track. -/
def countObserved (w : ObjWorld) : Nat :=
  (w.insts.filter (fun p => !p.2.observers.isEmpty)).length

/-- Environment in which every callable is a plain, effect-free function. -/
def env0 : Env :=
  { body := fun _ => CbAct.nop, isBound := fun _ => false,
    alive := fun _ => true, truthy := fun _ => true }

/-- Environment whose callbacks all raise. -/
def envRaise : Env := { env0 with body := fun _ => CbAct.raiseExc }

/-- Environment whose callbacks rewrite `hp` to `7` (as in the source test
`test_observer_mutates_same_attr`). -/
def envWrite : Env := { env0 with body := fun _ => CbAct.setK "hp" (PyVal.int 7) }

/-- Environment in which callback `0` removes every observer of `k` during
notification and the others do nothing. -/
def envDel : Env :=
  { env0 with body := fun c => if c = 0 then CbAct.delObsKey "k" else CbAct.nop }

/-- Environment in which every callable is falsy (`bool(callback)` is
`False`). -/
def envFalsy : Env := { env0 with truthy := fun _ => false }

/-- A class that has never been touched by observation. -/
def freshCls : Cls := { patched := false, refcount := Option.none, hasLock := false }

/-- A plain instance holding a single data attribute `hp`. -/
def playerInst (hp : Int) : Inst :=
  { attrs := [("hp", PyVal.int hp)], hasObservers := false, observers := [],
    hasIsObserving := false, isObserving := [] }

/-- One never-observed instance of a never-observed class. -/
def playerWorld1 : ObjWorld := { cls := freshCls, insts := [(1, playerInst 1)] }

/-- Two never-observed instances of a never-observed class. -/
def playerWorld2 : ObjWorld :=
  { cls := freshCls, insts := [(1, playerInst 1), (2, playerInst 2)] }

/-- Scenario: observe both instances, then call `remove_observers` twice on
instance 1. -/
def doubleRemoveWorld : ObjWorld :=
  (removeObserversObj
    ((removeObserversObj
      (addObserverObj env0 (addObserverObj env0 playerWorld2 1 "hp" 10) 2 "hp" 11)
      1 Option.none).1)
    1 Option.none).1

/-- Scenario: observe the only instance, then remove all its observers. -/
def teardownWorld : ObjWorld :=
  (removeObserversObj (addObserverObj env0 playerWorld1 1 "hp" 10) 1 Option.none).1

/-! # Association-list lemmas -/

theorem alookup_aset_self {α β : Type} [DecidableEq α] (l : List (α × β)) (a : α) (b : β) :
    alookup (aset l a b) a = some b := by
  induction l with
  | nil => simp [aset, alookup]
  | cons p rest ih =>
    by_cases h : p.1 = a
    · simp [aset, alookup, h]
    · simp [aset, alookup, h, ih]

theorem alookup_aset_ne {α β : Type} [DecidableEq α] (l : List (α × β)) (a x : α) (b : β)
    (h : x ≠ a) : alookup (aset l a b) x = alookup l x := by
  induction l with
  | nil => simp [aset, alookup, Ne.symm h]
  | cons p rest ih =>
    by_cases hp : p.1 = a
    · simp [aset, alookup, hp, Ne.symm h]
    · simp [aset, alookup, hp, ih]

theorem aset_aset {α β : Type} [DecidableEq α] (l : List (α × β)) (a : α) (b b' : β) :
    aset (aset l a b) a b' = aset l a b' := by
  induction l with
  | nil => simp [aset]
  | cons p rest ih =>
    by_cases h : p.1 = a <;> simp [aset, h, ih]

theorem alookup_append {α β : Type} [DecidableEq α] (l₁ l₂ : List (α × β)) (x : α) :
    alookup (l₁ ++ l₂) x =
      match alookup l₁ x with
      | some v => some v
      | Option.none => alookup l₂ x := by
  induction l₁ with
  | nil => simp [alookup]
  | cons p rest ih =>
    by_cases h : p.1 = x <;> simp [alookup, h, ih]

theorem removeFirst_none {β : Type} (p : β → Bool) (l : List β)
    (h : ∀ x ∈ l, p x = false) : removeFirst p l = Option.none := by
  induction l with
  | nil => rfl
  | cons x rest ih =>
    have hx := h x (by simp)
    simp [removeFirst, hx, ih (fun y hy => h y (by simp [hy]))]

/-! # Notification over effect-free and registration-only callbacks -/

theorem odExecL_regOnly (env : Env) (setI : ODict → String → PyVal → ResD)
    (act : CbAct) (h : regOnly act = true) (st : ODict) :
    (odExecL env setI act st).1.data = st.data ∧
    (odExecL env setI act st).1.isObserving = st.isObserving ∧
    (odExecL env setI act st).2.1 = [] ∧
    (odExecL env setI act st).2.2 = false := by
  induction act generalizing st with
  | nop => simp [odExecL]
  | raiseExc => simp [regOnly] at h
  | setK k v => simp [regOnly] at h
  | addObs k c => simp [odExecL, odAddObserver]
  | delObsKey k => simp [odExecL, odRemoveObserversInner]
  | seq a b iha ihb =>
    simp only [regOnly, Bool.and_eq_true] at h
    have ha := iha h.1 st
    have hb := ihb h.2 (odExecL env setI a st).1
    simp only [odExecL, ha.2.2.2, if_false, Bool.false_eq_true]
    refine ⟨?_, ?_, ?_, hb.2.2.2⟩
    · rw [hb.1, ha.1]
    · rw [hb.2.1, ha.2.1]
    · rw [hb.2.2.1, ha.2.2.1]; rfl

theorem odNotifyL_regOnly (env : Env) (setI : ODict → String → PyVal → ResD)
    (lst : List ObserverRef) (oldValue value : PyVal) (st : ODict)
    (h : ∀ r ∈ lst, regOnly (env.body (refId r)) = true) :
    (odNotifyL env setI lst oldValue value st).1.data = st.data ∧
    (odNotifyL env setI lst oldValue value st).1.isObserving = st.isObserving ∧
    (odNotifyL env setI lst oldValue value st).2.1 = aliveTrace env oldValue value lst ∧
    (odNotifyL env setI lst oldValue value st).2.2 = false := by
  induction lst generalizing st with
  | nil => simp [odNotifyL, aliveTrace]
  | cons r rest ih =>
    have hr := h r (by simp)
    have hrest : ∀ x ∈ rest, regOnly (env.body (refId x)) = true :=
      fun x hx => h x (by simp [hx])
    cases r with
    | strong c =>
      have he := odExecL_regOnly env setI (env.body c) hr st
      have hi := ih (odExecL env setI (env.body c) st).1 hrest
      simp only [odNotifyL, he.2.2.2, if_false, Bool.false_eq_true, aliveTrace]
      refine ⟨?_, ?_, ?_, hi.2.2.2⟩
      · rw [hi.1, he.1]
      · rw [hi.2.1, he.2.1]
      · rw [hi.2.2.1, he.2.2.1]; simp
    | weakMethod c =>
      by_cases hc : env.alive c
      · have he := odExecL_regOnly env setI (env.body c) hr st
        have hi := ih (odExecL env setI (env.body c) st).1 hrest
        simp only [odNotifyL, hc, if_true, he.2.2.2, if_false, Bool.false_eq_true, aliveTrace]
        refine ⟨?_, ?_, ?_, hi.2.2.2⟩
        · rw [hi.1, he.1]
        · rw [hi.2.1, he.2.1]
        · rw [hi.2.2.1, he.2.2.1]; simp
      · have hi := ih st hrest
        simp only [odNotifyL, hc, if_false, aliveTrace]
        exact hi

theorem odSetItemCore_regOnly (env : Env) (setI : ODict → String → PyVal → ResD)
    (d : ODict) (key : String) (value : PyVal)
    (hg : (alookup d.isObserving key).getD false = false)
    (hreg : ∀ r ∈ (alookup d.observers key).getD [], regOnly (env.body (refId r)) = true) :
    (odSetItemCore env setI d key value).1.data = aset d.data key value ∧
    (odSetItemCore env setI d key value).2.1 =
      aliveTrace env ((alookup d.data key).getD PyVal.none) value
        ((alookup d.observers key).getD []) ∧
    (odSetItemCore env setI d key value).2.2 = false ∧
    (alookup (odSetItemCore env setI d key value).1.isObserving key).getD false = false := by
  by_cases hs : (alookup d.isObserving key).isSome
  · cases ho : alookup d.observers key with
    | none =>
      simp [odSetItemCore, odEnsureGuard, hs, hg, ho, aliveTrace, alookup_aset_self]
    | some snapshot =>
      have hn := odNotifyL_regOnly env setI snapshot
        ((alookup d.data key).getD PyVal.none) value
        { d with isObserving := aset d.isObserving key true, data := aset d.data key value }
        (by intro r hr; exact hreg r (by simp [ho, hr]))
      simp [odSetItemCore, odEnsureGuard, hs, hg, ho, hn.1, hn.2.1, hn.2.2.1, hn.2.2.2,
            aliveTrace, alookup_aset_self]
  · have hlook : alookup d.isObserving key = Option.none := by
      cases hx : alookup d.isObserving key with
      | none => rfl
      | some b => rw [hx] at hs; simp at hs
    have hens : (alookup (d.isObserving ++ [(key, false)]) key).getD false = false := by
      rw [alookup_append, hlook]
      simp [alookup]
    cases ho : alookup d.observers key with
    | none =>
      simp [odSetItemCore, odEnsureGuard, hs, hens, ho, aliveTrace, alookup_aset_self]
    | some snapshot =>
      have hn := odNotifyL_regOnly env setI snapshot
        ((alookup d.data key).getD PyVal.none) value
        { d with isObserving := aset (d.isObserving ++ [(key, false)]) key true,
                 data := aset d.data key value }
        (by intro r hr; exact hreg r (by simp [ho, hr]))
      simp [odSetItemCore, odEnsureGuard, hs, hens, ho, hn.1, hn.2.1, hn.2.2.1, hn.2.2.2,
            aliveTrace, alookup_aset_self]

theorem odSetItem_regOnly (env : Env) (fuel : Nat) (d : ODict) (key : String) (value : PyVal)
    (hg : (alookup d.isObserving key).getD false = false)
    (hreg : ∀ r ∈ (alookup d.observers key).getD [], regOnly (env.body (refId r)) = true) :
    (odSetItem env fuel d key value).1.data = aset d.data key value ∧
    (odSetItem env fuel d key value).2.1 =
      aliveTrace env ((alookup d.data key).getD PyVal.none) value
        ((alookup d.observers key).getD []) ∧
    (odSetItem env fuel d key value).2.2 = false ∧
    (alookup (odSetItem env fuel d key value).1.isObserving key).getD false = false := by
  cases fuel with
  | zero => exact odSetItemCore_regOnly env _ d key value hg hreg
  | succ f => exact odSetItemCore_regOnly env _ d key value hg hreg

/-! # Instance-level preservation lemmas for the attribute engine -/

theorem getInst_setInst_self (w : ObjWorld) (i : Nat) (inst : Inst) :
    getInst (setInst w i inst) i = inst := by
  simp [getInst, setInst, alookup_aset_self]

theorem getInst_of_insts_aset {w' w : ObjWorld} {i : Nat} {inst : Inst}
    (h : w'.insts = aset w.insts i inst) : getInst w' i = inst := by
  simp [getInst, h, alookup_aset_self]

theorem addObserverObj_insts (env : Env) (w : ObjWorld) (i : Nat) (k : String) (c : Nat)
    (h : (getInst w i).hasObservers = true) :
    (addObserverObj env w i k c).insts =
      aset w.insts i
        { getInst w i with
          observers := obsAppend (getInst w i).observers k (normalizeCallback env c) } := by
  simp only [addObserverObj, h, if_true, Bool.not_true, Bool.false_eq_true, if_false]
  split <;> rfl

theorem removeObserversObj_insts (w : ObjWorld) (i : Nat) (attr : Option String)
    (h : (getInst w i).hasObservers = true) :
    ∃ obs, ((removeObserversObj w i attr).1).insts =
      aset w.insts i { getInst w i with observers := obs } := by
  simp only [removeObserversObj, h, Bool.not_true, Bool.false_eq_true, if_false]
  split
  · split
    · exact ⟨_, rfl⟩
    · exact ⟨_, rfl⟩
  · exact ⟨_, rfl⟩

theorem objExecL_regOnly (env : Env) (setA : ObjWorld → Nat → String → PyVal → ResW)
    (act : CbAct) (h : regOnly act = true) :
    ∀ (w : ObjWorld) (i : Nat), (getInst w i).hasObservers = true →
    (getInst (objExecL env setA act w i).1 i).attrs = (getInst w i).attrs ∧
    (getInst (objExecL env setA act w i).1 i).isObserving = (getInst w i).isObserving ∧
    (getInst (objExecL env setA act w i).1 i).hasIsObserving = (getInst w i).hasIsObserving ∧
    (getInst (objExecL env setA act w i).1 i).hasObservers = true ∧
    (objExecL env setA act w i).2.1 = [] ∧
    (objExecL env setA act w i).2.2 = false := by
  induction act with
  | nop => intro w i hw; simp [objExecL, hw]
  | raiseExc => simp [regOnly] at h
  | setK k v => simp [regOnly] at h
  | addObs k c =>
    intro w i hw
    have hi := getInst_of_insts_aset (addObserverObj_insts env w i k c hw)
    simp [objExecL, hi, hw]
  | delObsKey k =>
    intro w i hw
    obtain ⟨obs, hobs⟩ := removeObserversObj_insts w i (some k) hw
    have hi := getInst_of_insts_aset hobs
    simp [objExecL, hi, hw]
  | seq a b iha ihb =>
    intro w i hw
    simp only [regOnly, Bool.and_eq_true] at h
    have ha := iha h.1 w i hw
    have hb := ihb h.2 (objExecL env setA a w i).1 i ha.2.2.2.1
    simp only [objExecL, ha.2.2.2.2.2, if_false, Bool.false_eq_true]
    refine ⟨?_, ?_, ?_, hb.2.2.2.1, ?_, hb.2.2.2.2.2⟩
    · rw [hb.1, ha.1]
    · rw [hb.2.1, ha.2.1]
    · rw [hb.2.2.1, ha.2.2.1]
    · rw [hb.2.2.2.2.1, ha.2.2.2.2.1]; rfl

theorem objNotifyL_regOnly (env : Env) (setA : ObjWorld → Nat → String → PyVal → ResW)
    (lst : List ObserverRef) (oldValue value : PyVal)
    (h : ∀ r ∈ lst, regOnly (env.body (refId r)) = true) :
    ∀ (w : ObjWorld) (i : Nat), (getInst w i).hasObservers = true →
    (getInst (objNotifyL env setA lst oldValue value w i).1 i).attrs = (getInst w i).attrs ∧
    (getInst (objNotifyL env setA lst oldValue value w i).1 i).isObserving
      = (getInst w i).isObserving ∧
    (getInst (objNotifyL env setA lst oldValue value w i).1 i).hasIsObserving
      = (getInst w i).hasIsObserving ∧
    (getInst (objNotifyL env setA lst oldValue value w i).1 i).hasObservers = true ∧
    (objNotifyL env setA lst oldValue value w i).2.1 = aliveTrace env oldValue value lst ∧
    (objNotifyL env setA lst oldValue value w i).2.2 = false := by
  induction lst with
  | nil => intro w i hw; simp [objNotifyL, aliveTrace, hw]
  | cons r rest ih =>
    intro w i hw
    have hr := h r (by simp)
    have hrest : ∀ x ∈ rest, regOnly (env.body (refId x)) = true :=
      fun x hx => h x (by simp [hx])
    cases r with
    | strong c =>
      have he := objExecL_regOnly env setA (env.body c) hr w i hw
      have hi := ih hrest (objExecL env setA (env.body c) w i).1 i he.2.2.2.1
      simp only [objNotifyL, he.2.2.2.2.2, if_false, Bool.false_eq_true, aliveTrace]
      refine ⟨?_, ?_, ?_, hi.2.2.2.1, ?_, hi.2.2.2.2.2⟩
      · rw [hi.1, he.1]
      · rw [hi.2.1, he.2.1]
      · rw [hi.2.2.1, he.2.2.1]
      · rw [hi.2.2.2.2.1, he.2.2.2.2.1]; simp
    | weakMethod c =>
      by_cases hc : env.alive c
      · have he := objExecL_regOnly env setA (env.body c) hr w i hw
        have hi := ih hrest (objExecL env setA (env.body c) w i).1 i he.2.2.2.1
        simp only [objNotifyL, hc, if_true, he.2.2.2.2.2, if_false, Bool.false_eq_true,
                   aliveTrace]
        refine ⟨?_, ?_, ?_, hi.2.2.2.1, ?_, hi.2.2.2.2.2⟩
        · rw [hi.1, he.1]
        · rw [hi.2.1, he.2.1]
        · rw [hi.2.2.1, he.2.2.1]
        · rw [hi.2.2.2.2.1, he.2.2.2.2.1]; simp
      · have hi := ih hrest w i hw
        simp only [objNotifyL, hc, if_false, aliveTrace]
        exact hi

theorem objSetAttrCore_regOnly (env : Env) (setA : ObjWorld → Nat → String → PyVal → ResW)
    (w : ObjWorld) (i : Nat) (name : String) (value : PyVal)
    (hp : w.cls.patched = true) (hl : w.cls.hasLock = true)
    (ho : (getInst w i).hasObservers = true)
    (hio : (getInst w i).hasIsObserving = true)
    (hg : (alookup (getInst w i).isObserving name).getD false = false)
    (hreg : ∀ r ∈ (alookup (getInst w i).observers name).getD [],
        regOnly (env.body (refId r)) = true) :
    (getInst (objSetAttrCore env setA w i name value).1 i).attrs
      = aset (getInst w i).attrs name value ∧
    (objSetAttrCore env setA w i name value).2.1 =
      aliveTrace env ((alookup (getInst w i).attrs name).getD PyVal.none) value
        ((alookup (getInst w i).observers name).getD []) ∧
    (objSetAttrCore env setA w i name value).2.2 = false ∧
    (alookup (getInst (objSetAttrCore env setA w i name value).1 i).isObserving name).getD
        false = false := by
  cases hobs : alookup (getInst w i).observers name with
  | none =>
    simp [objSetAttrCore, objEnsureIsObserving, hp, hl, hio, ho, hg, hobs, getInst_setInst_self,
          aliveTrace, alookup_aset_self]
  | some snapshot =>
    have hw2 : getInst (setInst (setInst w i (getInst w i)) i
        { attrs := aset (getInst w i).attrs name value, hasObservers := true,
          observers := (getInst w i).observers, hasIsObserving := true,
          isObserving := aset (getInst w i).isObserving name true }) i =
        { attrs := aset (getInst w i).attrs name value, hasObservers := true,
          observers := (getInst w i).observers, hasIsObserving := true,
          isObserving := aset (getInst w i).isObserving name true } := getInst_setInst_self _ _ _
    have hn := objNotifyL_regOnly env setA snapshot
      ((alookup (getInst w i).attrs name).getD PyVal.none) value
      (by intro r hr; exact hreg r (by simp [hobs, hr]))
      (setInst (setInst w i (getInst w i)) i
        { attrs := aset (getInst w i).attrs name value, hasObservers := true,
          observers := (getInst w i).observers, hasIsObserving := true,
          isObserving := aset (getInst w i).isObserving name true }) i
      (by rw [hw2])
    simp only [objSetAttrCore, objEnsureIsObserving, hp, hl, if_true, hio, ho, hg, hobs, if_false,
               Bool.false_eq_true, hn.2.2.2.2.2]
    refine ⟨?_, ?_, by trivial, ?_⟩
    · have h1 := hn.1
      rw [hw2] at h1
      simp [getInst_setInst_self, h1]
    · rw [hn.2.2.2.2.1]; simp [hobs]
    · simp [getInst_setInst_self, alookup_aset_self]

theorem objSetAttr_regOnly (env : Env) (fuel : Nat)
    (w : ObjWorld) (i : Nat) (name : String) (value : PyVal)
    (hp : w.cls.patched = true) (hl : w.cls.hasLock = true)
    (ho : (getInst w i).hasObservers = true)
    (hio : (getInst w i).hasIsObserving = true)
    (hg : (alookup (getInst w i).isObserving name).getD false = false)
    (hreg : ∀ r ∈ (alookup (getInst w i).observers name).getD [],
        regOnly (env.body (refId r)) = true) :
    (getInst (objSetAttr env fuel w i name value).1 i).attrs
      = aset (getInst w i).attrs name value ∧
    (objSetAttr env fuel w i name value).2.1 =
      aliveTrace env ((alookup (getInst w i).attrs name).getD PyVal.none) value
        ((alookup (getInst w i).observers name).getD []) ∧
    (objSetAttr env fuel w i name value).2.2 = false ∧
    (alookup (getInst (objSetAttr env fuel w i name value).1 i).isObserving name).getD
        false = false := by
  cases fuel with
  | zero => exact objSetAttrCore_regOnly env _ w i name value hp hl ho hio hg hreg
  | succ f => exact objSetAttrCore_regOnly env _ w i name value hp hl ho hio hg hreg

/-! # Guard stickiness: a set guard flag survives every engine operation -/

theorem getD_false_eq_true {o : Option Bool} : o.getD false = true ↔ o = some true := by
  cases o with
  | none => simp
  | some b => cases b <;> simp

theorem odEnsureGuard_lookup (st : ODict) (key K : String)
    (h : alookup st.isObserving K = some true) :
    alookup (odEnsureGuard st key).isObserving K = some true := by
  unfold odEnsureGuard
  split
  · exact h
  · show alookup (st.isObserving ++ [(key, false)]) K = some true
    rw [alookup_append, h]

theorem odEnsureGuard_data (st : ODict) (key : String) :
    (odEnsureGuard st key).data = st.data := by
  unfold odEnsureGuard; split <;> rfl

theorem odEnsureGuard_observers (st : ODict) (key : String) :
    (odEnsureGuard st key).observers = st.observers := by
  unfold odEnsureGuard; split <;> rfl

theorem odExecL_preserves_guard (env : Env) (K : String)
    (setI : ODict → String → PyVal → ResD)
    (hset : ∀ st k v, alookup st.isObserving K = some true →
        alookup (setI st k v).1.isObserving K = some true)
    (act : CbAct) :
    ∀ st, alookup st.isObserving K = some true →
      alookup (odExecL env setI act st).1.isObserving K = some true := by
  induction act with
  | nop => intro st h; exact h
  | raiseExc => intro st h; exact h
  | setK k v => intro st h; exact hset st k v h
  | addObs k c => intro st h; simpa [odExecL, odAddObserver] using h
  | delObsKey k => intro st h; simpa [odExecL, odRemoveObserversInner] using h
  | seq a b iha ihb =>
    intro st h
    simp only [odExecL]
    split
    · exact iha st h
    · exact ihb _ (iha st h)

theorem odNotifyL_preserves_guard (env : Env) (K : String)
    (setI : ODict → String → PyVal → ResD)
    (hset : ∀ st k v, alookup st.isObserving K = some true →
        alookup (setI st k v).1.isObserving K = some true)
    (lst : List ObserverRef) (oldValue value : PyVal) :
    ∀ st, alookup st.isObserving K = some true →
      alookup (odNotifyL env setI lst oldValue value st).1.isObserving K = some true := by
  induction lst with
  | nil => intro st h; exact h
  | cons r rest ih =>
    intro st h
    have hex := odExecL_preserves_guard env K setI hset
    cases r with
    | strong c =>
      simp only [odNotifyL]
      split
      · exact hex _ st h
      · exact ih _ (hex _ st h)
    | weakMethod c =>
      simp only [odNotifyL]
      split
      · split
        · exact hex _ st h
        · exact ih _ (hex _ st h)
      · exact ih st h

theorem odSetItemCore_preserves_guard (env : Env) (K : String)
    (setI : ODict → String → PyVal → ResD)
    (hset : ∀ st k v, alookup st.isObserving K = some true →
        alookup (setI st k v).1.isObserving K = some true)
    (st : ODict) (key : String) (value : PyVal)
    (h : alookup st.isObserving K = some true) :
    alookup (odSetItemCore env setI st key value).1.isObserving K = some true := by
  have hens := odEnsureGuard_lookup st key K h
  by_cases hkK : key = K
  · subst hkK
    simp only [odSetItemCore, hens, Option.getD_some, if_true]
  · have hne : K ≠ key := fun hh => hkK hh.symm
    simp only [odSetItemCore]
    split
    · exact hens
    · have hset1 : alookup (aset (odEnsureGuard st key).isObserving key true) K
          = some true := by rw [alookup_aset_ne _ _ _ _ hne]; exact hens
      have hn := odNotifyL_preserves_guard env K setI hset
      split
      · rw [alookup_aset_ne _ _ _ _ hne]; exact hset1
      · split
        · exact hn _ _ _ _ hset1
        · rw [alookup_aset_ne _ _ _ _ hne]
          exact hn _ _ _ _ hset1

theorem odSetItem_preserves_guard (env : Env) (K : String) (fuel : Nat) :
    ∀ (st : ODict) (key : String) (value : PyVal),
      alookup st.isObserving K = some true →
      alookup (odSetItem env fuel st key value).1.isObserving K = some true := by
  induction fuel with
  | zero =>
    intro st key value h
    exact odSetItemCore_preserves_guard env K _ (fun st _ _ h => h) st key value h
  | succ f ih =>
    intro st key value h
    exact odSetItemCore_preserves_guard env K _ (fun st k v h => ih st k v h) st key value h

/-- An exception can only escape `__setitem__` out of the notification loop,
which runs with the written key's guard set; since the clearing on line 116 is
skipped, the guard stays set in the resulting state. -/
theorem odSetItem_exn_guard (env : Env) (fuel : Nat) (d : ODict) (key : String)
    (value : PyVal) (h : (odSetItem env fuel d key value).2.2 = true) :
    alookup (odSetItem env fuel d key value).1.isObserving key = some true := by
  have main : ∀ (setI : ODict → String → PyVal → ResD),
      (∀ st k v, alookup st.isObserving key = some true →
        alookup (setI st k v).1.isObserving key = some true) →
      (odSetItemCore env setI d key value).2.2 = true →
      alookup (odSetItemCore env setI d key value).1.isObserving key = some true := by
    intro setI hset
    simp only [odSetItemCore]
    split
    · intro hx; simp at hx
    · split
      · intro hx; simp at hx
      · split
        · intro _
          exact odNotifyL_preserves_guard env key setI hset _ _ _ _ (alookup_aset_self _ _ _)
        · intro hx; simp at hx
  cases fuel with
  | zero =>
    exact main _ (fun st _ _ hh => hh) h
  | succ f =>
    exact main _ (fun st k v hh => odSetItem_preserves_guard env key f st k v hh) h

theorem objEnsureIsObserving_of_true {inst : Inst} (h : inst.hasIsObserving = true) :
    objEnsureIsObserving inst = inst := by
  simp [objEnsureIsObserving, h]

theorem objExecL_preserves_inv (env : Env) (K : String) (i : Nat)
    (setA : ObjWorld → Nat → String → PyVal → ResW)
    (hset : ∀ w k v, ObjGuardInv w i K → ObjGuardInv (setA w i k v).1 i K)
    (act : CbAct) :
    ∀ w, ObjGuardInv w i K → ObjGuardInv (objExecL env setA act w i).1 i K := by
  induction act with
  | nop => intro w h; exact h
  | raiseExc => intro w h; exact h
  | setK k v => intro w h; exact hset w k v h
  | addObs k c =>
    intro w h
    have hi := getInst_of_insts_aset (addObserverObj_insts env w i k c h.1)
    simp only [objExecL]
    rw [ObjGuardInv, hi]
    exact ⟨h.1, h.2.1, h.2.2⟩
  | delObsKey k =>
    intro w h
    obtain ⟨obs, hobs⟩ := removeObserversObj_insts w i (some k) h.1
    have hi := getInst_of_insts_aset hobs
    simp only [objExecL]
    rw [ObjGuardInv, hi]
    exact ⟨h.1, h.2.1, h.2.2⟩
  | seq a b iha ihb =>
    intro w h
    simp only [objExecL]
    split
    · exact iha w h
    · exact ihb _ (iha w h)

theorem objNotifyL_preserves_inv (env : Env) (K : String) (i : Nat)
    (setA : ObjWorld → Nat → String → PyVal → ResW)
    (hset : ∀ w k v, ObjGuardInv w i K → ObjGuardInv (setA w i k v).1 i K)
    (lst : List ObserverRef) (oldValue value : PyVal) :
    ∀ w, ObjGuardInv w i K →
      ObjGuardInv (objNotifyL env setA lst oldValue value w i).1 i K := by
  induction lst with
  | nil => intro w h; exact h
  | cons r rest ih =>
    intro w h
    have hex := objExecL_preserves_inv env K i setA hset
    cases r with
    | strong c =>
      simp only [objNotifyL]
      split
      · exact hex _ w h
      · exact ih _ (hex _ w h)
    | weakMethod c =>
      simp only [objNotifyL]
      split
      · split
        · exact hex _ w h
        · exact ih _ (hex _ w h)
      · exact ih w h

theorem objSetAttrCore_preserves_inv (env : Env) (K : String) (i : Nat)
    (setA : ObjWorld → Nat → String → PyVal → ResW)
    (hset : ∀ w k v, ObjGuardInv w i K → ObjGuardInv (setA w i k v).1 i K)
    (w : ObjWorld) (name : String) (value : PyVal)
    (h : ObjGuardInv w i K) :
    ObjGuardInv (objSetAttrCore env setA w i name value).1 i K := by
  have hplain : ∀ w', ObjGuardInv w' i K → ObjGuardInv (plainSet w' i name value) i K := by
    intro w' h'
    have hi : getInst (plainSet w' i name value) i =
        { getInst w' i with attrs := aset (getInst w' i).attrs name value } := by
      simp [plainSet, getInst_setInst_self]
    rw [ObjGuardInv, hi]
    exact ⟨h'.1, h'.2.1, h'.2.2⟩
  have hens : objEnsureIsObserving (getInst w i) = getInst w i :=
    objEnsureIsObserving_of_true h.2.1
  by_cases hp : w.cls.patched = true
  · by_cases hl : w.cls.hasLock = true
    · have hw1 : ObjGuardInv (setInst w i (getInst w i)) i K := by
        rw [ObjGuardInv, getInst_setInst_self]
        exact ⟨h.1, h.2.1, h.2.2⟩
      by_cases hnK : name = K
      · subst hnK
        simp only [objSetAttrCore, hp, hl, if_true, hens, h.2.2, Option.getD_some]
        exact hplain _ hw1
      · have hne : K ≠ name := fun hh => hnK hh.symm
        simp only [objSetAttrCore, hp, hl, if_true, hens]
        split
        · exact hplain _ hw1
        · have hw2 : ObjGuardInv (setInst (setInst w i (getInst w i)) i
              { getInst w i with
                isObserving := aset (getInst w i).isObserving name true,
                attrs := aset (getInst w i).attrs name value }) i K := by
            rw [ObjGuardInv, getInst_setInst_self]
            refine ⟨h.1, h.2.1, ?_⟩
            show alookup (aset (getInst w i).isObserving name true) K = some true
            rw [alookup_aset_ne _ _ _ _ hne]; exact h.2.2
          split
          · rw [ObjGuardInv, getInst_setInst_self]
            rcases hw2 with ⟨a, b, c⟩
            rw [getInst_setInst_self] at a b c
            refine ⟨a, b, ?_⟩
            show alookup (aset (aset (getInst w i).isObserving name true) name false) K
              = some true
            rw [alookup_aset_ne _ _ _ _ hne, alookup_aset_ne _ _ _ _ hne]
            exact h.2.2
          · rename_i snapshot hsnap
            have hnres := objNotifyL_preserves_inv env K i setA hset snapshot
              ((alookup (getInst w i).attrs name).getD PyVal.none) value _ hw2
            split
            · exact hnres
            · rw [ObjGuardInv, getInst_setInst_self]
              refine ⟨hnres.1, hnres.2.1, ?_⟩
              show alookup (aset _ name false) K = some true
              rw [alookup_aset_ne _ _ _ _ hne]
              exact hnres.2.2
    · have hl' : w.cls.hasLock = false := by
        cases hx : w.cls.hasLock
        · rfl
        · exact absurd hx hl
      simp only [objSetAttrCore, hp, hl', if_true, Bool.false_eq_true, if_false]
      exact hplain _ h
  · have hp' : w.cls.patched = false := by
      cases hx : w.cls.patched
      · rfl
      · exact absurd hx hp
    simp only [objSetAttrCore, hp', Bool.false_eq_true, if_false]
    exact hplain _ h

theorem objSetAttr_preserves_inv (env : Env) (K : String) (i : Nat) (fuel : Nat) :
    ∀ (w : ObjWorld) (name : String) (value : PyVal),
      ObjGuardInv w i K → ObjGuardInv (objSetAttr env fuel w i name value).1 i K := by
  induction fuel with
  | zero =>
    intro w name value h
    exact objSetAttrCore_preserves_inv env K i _ (fun w _ _ h => h) w name value h
  | succ f ih =>
    intro w name value h
    exact objSetAttrCore_preserves_inv env K i _ (fun w k v h => ih w k v h) w name value h

/-- An exception can only escape `new_setattr` out of its notification loop,
which runs with the written attribute's guard set; since the clearing on line
266 is skipped, the guard stays set on the instance in the resulting world. -/
theorem objSetAttr_exn_guard (env : Env) (fuel : Nat) (w : ObjWorld) (i : Nat)
    (name : String) (value : PyVal)
    (h : (objSetAttr env fuel w i name value).2.2 = true) :
    alookup (getInst (objSetAttr env fuel w i name value).1 i).isObserving name
      = some true := by
  have main : ∀ (setA : ObjWorld → Nat → String → PyVal → ResW),
      (∀ w k v, ObjGuardInv w i name → ObjGuardInv (setA w i k v).1 i name) →
      (objSetAttrCore env setA w i name value).2.2 = true →
      alookup (getInst (objSetAttrCore env setA w i name value).1 i).isObserving name
        = some true := by
    intro setA hset
    simp only [objSetAttrCore]
    split
    · split
      · split
        · intro hx; simp at hx
        · split
          · intro hx; simp at hx
          · rename_i snapshot hsnap
            split
            · intro _
              have hww : ObjGuardInv (setInst (setInst w i
                  (objEnsureIsObserving (getInst w i))) i
                  { objEnsureIsObserving (getInst w i) with
                    isObserving :=
                      aset (objEnsureIsObserving (getInst w i)).isObserving name true,
                    attrs :=
                      aset (objEnsureIsObserving (getInst w i)).attrs name value }) i name := by
                rw [ObjGuardInv, getInst_setInst_self]
                have hobs : (objEnsureIsObserving (getInst w i)).hasObservers = true := by
                  by_cases hb : (objEnsureIsObserving (getInst w i)).hasObservers = true
                  · exact hb
                  · exfalso
                    have hb' : (objEnsureIsObserving (getInst w i)).hasObservers = false := by
                      cases hx : (objEnsureIsObserving (getInst w i)).hasObservers
                      · rfl
                      · exact absurd hx hb
                    rw [hb'] at hsnap
                    simp [alookup] at hsnap
                refine ⟨hobs, ?_, alookup_aset_self _ _ _⟩
                simp [objEnsureIsObserving]
                split <;> simp_all
              exact (objNotifyL_preserves_inv env name i setA hset _ _ _ _ hww).2.2
            · intro hx; simp at hx
      · intro hx; simp at hx
    · intro hx; simp at hx
  cases fuel with
  | zero =>
    exact main _ (fun w _ _ hh => hh) h
  | succ f =>
    exact main _ (fun w k v hh => objSetAttr_preserves_inv env name i f w k v hh) h

/-! # Reentrant (guarded) writes and writes after teardown -/

theorem odEnsureGuard_of_isSome (st : ODict) (key : String)
    (h : (alookup st.isObserving key).isSome) : odEnsureGuard st key = st := by
  simp [odEnsureGuard, h]

theorem odSetItemCore_guarded (env : Env) (setI : ODict → String → PyVal → ResD)
    (d : ODict) (key : String) (value : PyVal)
    (h : alookup d.isObserving key = some true) :
    odSetItemCore env setI d key value = ({ d with data := aset d.data key value }, [], false) := by
  have he : odEnsureGuard d key = d := odEnsureGuard_of_isSome d key (by simp [h])
  simp [odSetItemCore, he, h]

theorem odSetItem_guarded (env : Env) (fuel : Nat) (d : ODict) (key : String) (value : PyVal)
    (h : alookup d.isObserving key = some true) :
    odSetItem env fuel d key value = ({ d with data := aset d.data key value }, [], false) := by
  cases fuel with
  | zero => exact odSetItemCore_guarded env _ d key value h
  | succ f => exact odSetItemCore_guarded env _ d key value h

theorem plainSet_setInst_self (w : ObjWorld) (i : Nat) (name : String) (value : PyVal) :
    plainSet (setInst w i (getInst w i)) i name value = plainSet w i name value := by
  unfold plainSet
  rw [getInst_setInst_self]
  simp [setInst, aset_aset]

theorem objSetAttrCore_guarded (env : Env) (setA : ObjWorld → Nat → String → PyVal → ResW)
    (w : ObjWorld) (i : Nat) (name : String) (value : PyVal)
    (hp : w.cls.patched = true) (hl : w.cls.hasLock = true)
    (hio : (getInst w i).hasIsObserving = true)
    (hg : alookup (getInst w i).isObserving name = some true) :
    objSetAttrCore env setA w i name value = (plainSet w i name value, [], false) := by
  have hens := objEnsureIsObserving_of_true hio
  simp [objSetAttrCore, hp, hl, hens, hg, plainSet_setInst_self]

theorem objSetAttr_guarded (env : Env) (fuel : Nat) (w : ObjWorld) (i : Nat)
    (name : String) (value : PyVal)
    (hp : w.cls.patched = true) (hl : w.cls.hasLock = true)
    (hio : (getInst w i).hasIsObserving = true)
    (hg : alookup (getInst w i).isObserving name = some true) :
    objSetAttr env fuel w i name value = (plainSet w i name value, [], false) := by
  cases fuel with
  | zero => exact objSetAttrCore_guarded env _ w i name value hp hl hio hg
  | succ f => exact objSetAttrCore_guarded env _ w i name value hp hl hio hg

theorem objSetAttr_unpatched (env : Env) (fuel : Nat) (w : ObjWorld) (i : Nat)
    (name : String) (value : PyVal) (hp : w.cls.patched = false) :
    objSetAttr env fuel w i name value = (plainSet w i name value, [], false) := by
  cases fuel with
  | zero => simp [objSetAttr, objSetAttrCore, hp]
  | succ f => simp [objSetAttr, objSetAttrCore, hp]

/-! # Removal of an unregistered callback -/

theorem odRemoveObserver_notfound (env : Env) (d : ODict) (attr : String) (c : Nat)
    (h : ∀ r ∈ (alookup d.observers attr).getD [],
        rawEq c r = false ∧ refEq env r (normalizeCallback env c) = false) :
    odRemoveObserver env d attr c = (d, false) := by
  by_cases he : d.observers.isEmpty = true
  · simp [odRemoveObserver, he]
  · cases ho : alookup d.observers attr with
    | none => simp [odRemoveObserver, he, ho]
    | some lst =>
      have h1 : removeFirst (rawEq c) lst = Option.none :=
        removeFirst_none _ _ (fun x hx => (h x (by simp [ho, hx])).1)
      have h2 : removeFirst (fun r => refEq env r (normalizeCallback env c)) lst
          = Option.none :=
        removeFirst_none _ _ (fun x hx => (h x (by simp [ho, hx])).2)
      simp [odRemoveObserver, he, ho, h1, h2]

theorem removeObserverObj_notfound (env : Env) (w : ObjWorld) (i : Nat) (attr : String)
    (c : Nat)
    (h : ∀ r ∈ (alookup (getInst w i).observers attr).getD [],
        rawEq c r = false ∧ refEq env r (normalizeCallback env c) = false) :
    removeObserverObj env w i attr c = (w, false) := by
  by_cases hobs : (getInst w i).hasObservers = true
  · cases ho : alookup (getInst w i).observers attr with
    | none => simp [removeObserverObj, hobs, ho]
    | some lst =>
      by_cases hl : lst.isEmpty = true
      · simp [removeObserverObj, hobs, ho, hl]
      · have h1 : removeFirst (rawEq c) lst = Option.none :=
          removeFirst_none _ _ (fun x hx => (h x (by simp [ho, hx])).1)
        have h2 : removeFirst (fun r => refEq env r (normalizeCallback env c)) lst
            = Option.none :=
          removeFirst_none _ _ (fun x hx => (h x (by simp [ho, hx])).2)
        simp [removeObserverObj, hobs, ho, hl, h1, h2]
  · have hobs' : (getInst w i).hasObservers = false := by
      cases hx : (getInst w i).hasObservers
      · rfl
      · exact absurd hx hobs
    simp [removeObserverObj, hobs']

/-! # Registration bookkeeping lemmas -/

theorem obsAppend_lookup (m : List (String × List ObserverRef)) (k : String)
    (r : ObserverRef) :
    alookup (obsAppend m k r) k = some ((alookup m k).getD [] ++ [r]) := by
  unfold obsAppend
  cases h : alookup m k with
  | some l => simp [h, alookup_aset_self]
  | none => simp [h, alookup_append, alookup]

theorem aliveTrace_append (env : Env) (o n : PyVal) (l1 l2 : List ObserverRef) :
    aliveTrace env o n (l1 ++ l2) = aliveTrace env o n l1 ++ aliveTrace env o n l2 := by
  induction l1 with
  | nil => rfl
  | cons r rest ih =>
    cases r with
    | strong c => simp [aliveTrace, ih]
    | weakMethod c => by_cases hc : env.alive c <;> simp [aliveTrace, hc, ih]

theorem aliveTrace_filter_ne (env : Env) (o n : PyVal) (cb : Nat) (l : List ObserverRef)
    (h : ∀ r ∈ l, refId r ≠ cb) :
    (aliveTrace env o n l).filter (fun e => e.1 == cb) = [] := by
  induction l with
  | nil => rfl
  | cons r rest ih =>
    have hr := h r (by simp)
    have hrest : ∀ x ∈ rest, refId x ≠ cb := fun x hx => h x (by simp [hx])
    cases r with
    | strong c =>
      simp only [refId] at hr
      simp [aliveTrace, List.filter_cons, hr, ih hrest]
    | weakMethod c =>
      simp only [refId] at hr
      by_cases hc : env.alive c
      · simp [aliveTrace, hc, List.filter_cons, hr, ih hrest]
      · simp [aliveTrace, hc, ih hrest]

theorem addObserverObj_cls (env : Env) (w : ObjWorld) (i : Nat) (k : String) (c : Nat) :
    (addObserverObj env w i k c).cls.patched = true ∧
    (w.cls.patched = false → (addObserverObj env w i k c).cls.hasLock = true) ∧
    (w.cls.patched = true → (addObserverObj env w i k c).cls.hasLock = w.cls.hasLock) := by
  cases hp : w.cls.patched <;> cases ho : (getInst w i).hasObservers <;>
    simp [addObserverObj, hp, ho, setInst]

theorem addObserverObj_insts_first (env : Env) (w : ObjWorld) (i : Nat) (k : String)
    (c : Nat) (h : (getInst w i).hasObservers = false) :
    (addObserverObj env w i k c).insts =
      aset w.insts i
        { attrs := (getInst w i).attrs, hasObservers := true,
          observers := [(k, [normalizeCallback env c])],
          hasIsObserving := true, isObserving := [] } := by
  simp only [addObserverObj, h, Bool.not_false, Bool.false_eq_true, if_false, if_true,
             obsAppend, alookup, List.nil_append]
  split <;> rfl

/-! # A single observer that rewrites its own key -/

theorem odSetItem_selfwrite (env : Env) (fuel : Nat) (d : ODict) (K : String)
    (V W : PyVal) (cb : Nat)
    (hbody : env.body cb = CbAct.setK K W)
    (hobs : alookup d.observers K = some [ObserverRef.strong cb])
    (hg : (alookup d.isObserving K).getD false = false) :
    (odSetItem env (fuel + 1) d K V).2.1
       = [(cb, (alookup d.data K).getD PyVal.none, V)] ∧
    (odSetItem env (fuel + 1) d K V).2.2 = false ∧
    alookup (odSetItem env (fuel + 1) d K V).1.data K = some W ∧
    (alookup (odSetItem env (fuel + 1) d K V).1.isObserving K).getD false = false := by
  by_cases hs : (alookup d.isObserving K).isSome
  · have hR := odSetItem_guarded env fuel
      { data := aset d.data K V, observers := d.observers,
        isObserving := aset d.isObserving K true } K W (alookup_aset_self _ _ _)
    simp [odSetItem, odSetItemCore, odEnsureGuard, hs, hg, hobs, odNotifyL, odExecL,
          hbody, hR, aset_aset, alookup_aset_self]
  · have hlook : alookup d.isObserving K = Option.none := by
      cases hx : alookup d.isObserving K with
      | none => rfl
      | some b => rw [hx] at hs; simp at hs
    have hens : (alookup (d.isObserving ++ [(K, false)]) K).getD false = false := by
      rw [alookup_append, hlook]; simp [alookup]
    have hR := odSetItem_guarded env fuel
      { data := aset d.data K V, observers := d.observers,
        isObserving := aset (d.isObserving ++ [(K, false)]) K true } K W
      (alookup_aset_self _ _ _)
    simp [odSetItem, odSetItemCore, odEnsureGuard, hs, hens, hobs, odNotifyL, odExecL,
          hbody, hR, aset_aset, alookup_aset_self]

theorem objSetAttr_selfwrite (env : Env) (fuel : Nat) (w : ObjWorld) (i : Nat)
    (K : String) (V W : PyVal) (cb : Nat)
    (hp : w.cls.patched = true) (hl : w.cls.hasLock = true)
    (ho : (getInst w i).hasObservers = true)
    (hio : (getInst w i).hasIsObserving = true)
    (hbody : env.body cb = CbAct.setK K W)
    (hobs : alookup (getInst w i).observers K = some [ObserverRef.strong cb])
    (hg : (alookup (getInst w i).isObserving K).getD false = false) :
    (objSetAttr env (fuel + 1) w i K V).2.1
       = [(cb, (alookup (getInst w i).attrs K).getD PyVal.none, V)] ∧
    (objSetAttr env (fuel + 1) w i K V).2.2 = false ∧
    alookup (getInst (objSetAttr env (fuel + 1) w i K V).1 i).attrs K = some W ∧
    (alookup (getInst (objSetAttr env (fuel + 1) w i K V).1 i).isObserving K).getD false
       = false := by
  have hR := objSetAttr_guarded env fuel
    (setInst (setInst w i (getInst w i)) i
      { attrs := aset (getInst w i).attrs K V, hasObservers := true,
        observers := (getInst w i).observers, hasIsObserving := true,
        isObserving := aset (getInst w i).isObserving K true }) i K W
    hp hl (by rw [getInst_setInst_self]) (by rw [getInst_setInst_self]; exact alookup_aset_self _ _ _)
  simp [objSetAttr, objSetAttrCore, objEnsureIsObserving, hio, ho, hp, hl, hg, hobs,
        objNotifyL, objExecL, hbody, hR, plainSet, getInst_setInst_self,
        aset_aset, alookup_aset_self]

/-! # Teardown of the class patch -/

theorem removeObserversObj_teardown (w : ObjWorld) (i : Nat)
    (h1 : (getInst w i).hasObservers = true)
    (h2 : w.cls.refcount = some 1)
    (h3 : w.cls.patched = true) :
    ((removeObserversObj w i Option.none).1).cls.patched = false ∧
    ((removeObserversObj w i Option.none).1).cls.refcount = Option.none ∧
    ((removeObserversObj w i Option.none).1).cls.hasLock = w.cls.hasLock := by
  simp [removeObserversObj, h1, h2, h3, setInst]

/-! # The claims -/

/-- C1: for an `ObservableDict` and for an observed object alike, after
`observe(E, K, cb)` registers a plain, effect-free callback `cb` that was not
already observing `K` (object side: on a not-yet-observed instance), a single
write of `V` to `K` invokes `cb` exactly once, with the previous value of `K`
and `V`, raises nothing, and leaves `V` stored under `K`. -/
theorem claim_C1_single_write_single_notification
    (env : Env) (d : ODict) (K : String) (cb : Nat) (V : PyVal) (fuel : Nat)
    (hb : env.isBound cb = false) (ht : env.truthy cb = true)
    (hnop : ∀ c, env.body c = CbAct.nop)
    (hfresh : ∀ r ∈ (alookup d.observers K).getD [], refId r ≠ cb)
    (hg : (alookup d.isObserving K).getD false = false)
    (w : ObjWorld) (i : Nat)
    (hW0 : (getInst w i).hasObservers = false)
    (hWl : w.cls.patched = true → w.cls.hasLock = true) :
    (observe env (.obsDict d) K (some cb)
        = .registered (.obsDict (odAddObserver env d K cb)) ∧
      ((odSetItem env fuel (odAddObserver env d K cb) K V).2.1.filter
          (fun e => e.1 == cb))
        = [(cb, (alookup d.data K).getD PyVal.none, V)] ∧
      alookup (odSetItem env fuel (odAddObserver env d K cb) K V).1.data K = some V ∧
      (odSetItem env fuel (odAddObserver env d K cb) K V).2.2 = false) ∧
    (observe env (.obj w i) K (some cb)
        = .registered (.obj (addObserverObj env w i K cb) i) ∧
      (objSetAttr env fuel (addObserverObj env w i K cb) i K V).2.1
        = [(cb, (alookup (getInst w i).attrs K).getD PyVal.none, V)] ∧
      alookup (getInst (objSetAttr env fuel (addObserverObj env w i K cb) i K V).1 i).attrs K
        = some V ∧
      (objSetAttr env fuel (addObserverObj env w i K cb) i K V).2.2 = false) := by
  have hnorm : normalizeCallback env cb = .strong cb := by simp [normalizeCallback, hb]
  constructor
  · have hits := odSetItem_regOnly env fuel (odAddObserver env d K cb) K V hg
      (by intro r hr; simp [hnop, regOnly])
    refine ⟨by simp [observe, targetAdd, ht], ?_, ?_, hits.2.2.1⟩
    · rw [hits.2.1]
      have hsnap : alookup (odAddObserver env d K cb).observers K
          = some ((alookup d.observers K).getD [] ++ [ObserverRef.strong cb]) := by
        show alookup (obsAppend d.observers K (normalizeCallback env cb)) K = _
        rw [hnorm, obsAppend_lookup]
      show (aliveTrace env ((alookup d.data K).getD PyVal.none) V
          ((alookup (odAddObserver env d K cb).observers K).getD [])).filter
            (fun e => e.1 == cb) = _
      rw [hsnap]
      show (aliveTrace env ((alookup d.data K).getD PyVal.none) V
          ((alookup d.observers K).getD [] ++ [ObserverRef.strong cb])).filter
            (fun e => e.1 == cb) = _
      rw [aliveTrace_append, List.filter_append,
          aliveTrace_filter_ne env _ _ cb _ hfresh]
      simp [aliveTrace]
    · rw [hits.1]
      exact alookup_aset_self _ _ _
  · have hcls := addObserverObj_cls env w i K cb
    have hlock : (addObserverObj env w i K cb).cls.hasLock = true := by
      cases hx : w.cls.patched with
      | false => exact hcls.2.1 hx
      | true => rw [hcls.2.2 hx]; exact hWl hx
    have hInst : getInst (addObserverObj env w i K cb) i =
        { attrs := (getInst w i).attrs, hasObservers := true,
          observers := [(K, [normalizeCallback env cb])],
          hasIsObserving := true, isObserving := [] } :=
      getInst_of_insts_aset (addObserverObj_insts_first env w i K cb hW0)
    have hits := objSetAttr_regOnly env fuel (addObserverObj env w i K cb) i K V
      hcls.1 hlock (by rw [hInst]) (by rw [hInst])
      (by rw [hInst]; simp [alookup])
      (by intro r hr; simp [hnop, regOnly])
    refine ⟨by simp [observe, targetAdd, ht], ?_, ?_, hits.2.2.1⟩
    · rw [hits.2.1, hInst]
      simp [hnorm, alookup, aliveTrace]
    · rw [hits.1]
      exact alookup_aset_self _ _ _

/-- C1 witness: concrete container `{k: 1}` and object `hp = 1`; writing `2`
invokes the single registered callback once with `(1, 2)`. -/
theorem claim_C1_witness :
    ((odSetItem env0 3
        (odAddObserver env0 ⟨[("hp", PyVal.int 1)], [], []⟩ "hp" 7) "hp"
        (PyVal.int 2)).2.1.filter (fun e => e.1 == 7))
      = [(7, PyVal.int 1, PyVal.int 2)] ∧
    (objSetAttr env0 3 (addObserverObj env0 playerWorld1 1 "hp" 7) 1 "hp"
        (PyVal.int 2)).2.1 = [(7, PyVal.int 1, PyVal.int 2)] := by
  have h := claim_C1_single_write_single_notification env0 ⟨[("hp", PyVal.int 1)], [], []⟩
    "hp" 7 (PyVal.int 2) 3 rfl rfl (fun _ => rfl) (by decide) rfl playerWorld1 1
    (by decide) (by decide)
  exact ⟨h.1.2.1, h.2.2.1⟩

/-- C2: the code violates the refcount invariant — after observing two
instances and calling `remove_observers` twice on the first, the class
counter is decremented to zero and deleted, and the interception is torn
down, although the second instance still holds one observer; its observers
never fire again.  The claim requires the counter to equal the number of
instances holding observers (here 1) throughout. -/
theorem claim_C2_refcount_desync :
    countObserved doubleRemoveWorld = 1 ∧
    doubleRemoveWorld.cls.refcount = Option.none ∧
    doubleRemoveWorld.cls.patched = false ∧
    (objSetAttr env0 1 doubleRemoveWorld 2 "hp" (PyVal.int 5)).2.1 = [] := by
  decide

/-- C3 counterexample: the "no value" old-value argument is not distinct from
every storable value — a first-ever write to an absent key and a write over a
stored `None` pass the observer identical arguments `(None, 5)`, so an
observer cannot distinguish the two situations. -/
theorem claim_C3_counterexample :
    (odSetItem env0 1
        ⟨[], [("k", [ObserverRef.strong 0])], []⟩ "k" (PyVal.int 5)).2.1
      = [(0, PyVal.none, PyVal.int 5)] ∧
    (odSetItem env0 1
        ⟨[("k", PyVal.none)], [("k", [ObserverRef.strong 0])], []⟩ "k" (PyVal.int 5)).2.1
      = [(0, PyVal.none, PyVal.int 5)] := by
  decide

/-- C3 amended: on a first-ever write to an absent key/attribute every
observer receives `None` (`PyVal.none`) as the old value — the same value an
observer receives when the key previously held a stored `None`, so absence is
reported but not distinguishable from a stored `None`. -/
theorem claim_C3_absent_old_value_is_none :
    (∀ (env : Env) (fuel : Nat) (d : ODict) (K : String) (V : PyVal),
      (alookup d.isObserving K).getD false = false →
      alookup d.data K = Option.none →
      (∀ r ∈ (alookup d.observers K).getD [], regOnly (env.body (refId r)) = true) →
      (odSetItem env fuel d K V).2.1
        = aliveTrace env PyVal.none V ((alookup d.observers K).getD [])) ∧
    (∀ (env : Env) (fuel : Nat) (w : ObjWorld) (i : Nat) (K : String) (V : PyVal),
      w.cls.patched = true → w.cls.hasLock = true →
      (getInst w i).hasObservers = true → (getInst w i).hasIsObserving = true →
      (alookup (getInst w i).isObserving K).getD false = false →
      alookup (getInst w i).attrs K = Option.none →
      (∀ r ∈ (alookup (getInst w i).observers K).getD [],
          regOnly (env.body (refId r)) = true) →
      (objSetAttr env fuel w i K V).2.1
        = aliveTrace env PyVal.none V ((alookup (getInst w i).observers K).getD [])) := by
  constructor
  · intro env fuel d K V hg habs hreg
    have hh := odSetItem_regOnly env fuel d K V hg hreg
    rw [hh.2.1, habs]
    rfl
  · intro env fuel w i K V hp hl ho hio hg habs hreg
    have hh := objSetAttr_regOnly env fuel w i K V hp hl ho hio hg hreg
    rw [hh.2.1, habs]
    rfl

/-- C3 witness: a dict with no entry for `k` and an instance with no `hp`
attribute; writing `5` passes old value `None`. -/
theorem claim_C3_witness :
    (odSetItem env0 2 ⟨[], [("k", [ObserverRef.strong 3])], []⟩ "k" (PyVal.int 5)).2.1
      = aliveTrace env0 PyVal.none (PyVal.int 5) [ObserverRef.strong 3] ∧
    (objSetAttr env0 2
        ⟨⟨true, some 1, true⟩,
         [(1, ⟨[], true, [("hp", [ObserverRef.strong 3])], true, []⟩)]⟩
        1 "hp" (PyVal.int 5)).2.1
      = aliveTrace env0 PyVal.none (PyVal.int 5) [ObserverRef.strong 3] := by
  constructor
  · have h := claim_C3_absent_old_value_is_none.1 env0 2
      ⟨[], [("k", [ObserverRef.strong 3])], []⟩ "k" (PyVal.int 5)
      rfl rfl (by decide)
    exact h
  · have h := claim_C3_absent_old_value_is_none.2 env0 2
      ⟨⟨true, some 1, true⟩,
       [(1, ⟨[], true, [("hp", [ObserverRef.strong 3])], true, []⟩)]⟩
      1 "hp" (PyVal.int 5) rfl rfl (by decide) (by decide) (by decide) (by decide)
      (by decide)
    exact h

/-- C4: reentrant writes are guarded in both engines — a write to a key whose
guard flag is set applies the value immediately with no notification and no
exception; and an observer whose body rewrites the same key it was notified
for is invoked once, does not recurse, the outer pass completes with the
guard cleared, and the final stored value is the one of the (inner) last
write. -/
theorem claim_C4_reentrant_write_guarded :
    (∀ (env : Env) (fuel : Nat) (d : ODict) (K : String) (V : PyVal),
      alookup d.isObserving K = some true →
      odSetItem env fuel d K V = ({ d with data := aset d.data K V }, [], false)) ∧
    (∀ (env : Env) (fuel : Nat) (w : ObjWorld) (i : Nat) (K : String) (V : PyVal),
      w.cls.patched = true → w.cls.hasLock = true →
      (getInst w i).hasIsObserving = true →
      alookup (getInst w i).isObserving K = some true →
      objSetAttr env fuel w i K V = (plainSet w i K V, [], false)) ∧
    (∀ (env : Env) (fuel : Nat) (d : ODict) (K : String) (V W : PyVal) (cb : Nat),
      env.body cb = CbAct.setK K W →
      alookup d.observers K = some [ObserverRef.strong cb] →
      (alookup d.isObserving K).getD false = false →
      (odSetItem env (fuel + 1) d K V).2.1
        = [(cb, (alookup d.data K).getD PyVal.none, V)] ∧
      (odSetItem env (fuel + 1) d K V).2.2 = false ∧
      alookup (odSetItem env (fuel + 1) d K V).1.data K = some W ∧
      (alookup (odSetItem env (fuel + 1) d K V).1.isObserving K).getD false = false) ∧
    (∀ (env : Env) (fuel : Nat) (w : ObjWorld) (i : Nat) (K : String) (V W : PyVal)
        (cb : Nat),
      w.cls.patched = true → w.cls.hasLock = true →
      (getInst w i).hasObservers = true → (getInst w i).hasIsObserving = true →
      env.body cb = CbAct.setK K W →
      alookup (getInst w i).observers K = some [ObserverRef.strong cb] →
      (alookup (getInst w i).isObserving K).getD false = false →
      (objSetAttr env (fuel + 1) w i K V).2.1
        = [(cb, (alookup (getInst w i).attrs K).getD PyVal.none, V)] ∧
      (objSetAttr env (fuel + 1) w i K V).2.2 = false ∧
      alookup (getInst (objSetAttr env (fuel + 1) w i K V).1 i).attrs K = some W ∧
      (alookup (getInst (objSetAttr env (fuel + 1) w i K V).1 i).isObserving K).getD false
        = false) := by
  refine ⟨?_, ?_, ?_, ?_⟩
  · intro env fuel d K V h
    exact odSetItem_guarded env fuel d K V h
  · intro env fuel w i K V hp hl hio hg
    exact objSetAttr_guarded env fuel w i K V hp hl hio hg
  · intro env fuel d K V W cb hbody hobs hg
    exact odSetItem_selfwrite env fuel d K V W cb hbody hobs hg
  · intro env fuel w i K V W cb hp hl ho hio hbody hobs hg
    exact objSetAttr_selfwrite env fuel w i K V W cb hp hl ho hio hbody hobs hg

/-- C4 witness: a guarded write applies silently, and the self-rewriting
observer scenario from the test suite (`hp = 2` while the observer writes 7)
terminates with `hp = 7` after one invocation. -/
theorem claim_C4_witness :
    odSetItem env0 1 ⟨[("k", PyVal.int 1)], [], [("k", true)]⟩ "k" (PyVal.int 2)
      = (⟨[("k", PyVal.int 2)], [], [("k", true)]⟩, [], false) ∧
    (odSetItem envWrite 2 ⟨[("hp", PyVal.int 1)], [("hp", [ObserverRef.strong 0])], []⟩
        "hp" (PyVal.int 2)).2.1 = [(0, PyVal.int 1, PyVal.int 2)] ∧
    alookup (odSetItem envWrite 2
        ⟨[("hp", PyVal.int 1)], [("hp", [ObserverRef.strong 0])], []⟩
        "hp" (PyVal.int 2)).1.data "hp" = some (PyVal.int 7) ∧
    (objSetAttr envWrite 2 (addObserverObj envWrite playerWorld1 1 "hp" 0) 1 "hp"
        (PyVal.int 2)).2.1 = [(0, PyVal.int 1, PyVal.int 2)] ∧
    alookup (getInst (objSetAttr envWrite 2
        (addObserverObj envWrite playerWorld1 1 "hp" 0) 1 "hp" (PyVal.int 2)).1 1).attrs
        "hp" = some (PyVal.int 7) := by
  have h1 := claim_C4_reentrant_write_guarded.1 env0 1
    ⟨[("k", PyVal.int 1)], [], [("k", true)]⟩ "k" (PyVal.int 2) (by decide)
  have h2 := claim_C4_reentrant_write_guarded.2.2.1 envWrite 1
    ⟨[("hp", PyVal.int 1)], [("hp", [ObserverRef.strong 0])], []⟩
    "hp" (PyVal.int 2) (PyVal.int 7) 0 rfl (by decide) rfl
  have h3 := claim_C4_reentrant_write_guarded.2.2.2 envWrite 1
    (addObserverObj envWrite playerWorld1 1 "hp" 0) 1 "hp" (PyVal.int 2) (PyVal.int 7) 0
    (by decide) (by decide) (by decide) (by decide) rfl (by decide) (by decide)
  exact ⟨h1, h2.1, h2.2.2.1, h3.1, h3.2.2.1⟩

/-- C5 counterexample: after the last observed instance has its observers
removed, the model of the teardown shows the patch uninstalled and the
counter deleted, but the class still carries the mutex attribute
(`__observe_lock__` is never deleted in `remove_observers`), contradicting
"the shared mutex and counter are discarded from the class". -/
theorem claim_C5_counterexample :
    teardownWorld.cls.patched = false ∧
    teardownWorld.cls.refcount = Option.none ∧
    teardownWorld.cls.hasLock = true := by
  decide

/-- C5 amended: when `remove_observers` empties the observer table of the
last observed instance (counter 1), the original mutation routine is restored
and the counter is deleted — but the mutex attribute remains on the class —
and every subsequent attribute assignment on any instance of the class is a
plain write with no notification and no exception. -/
theorem claim_C5_teardown_restores_setattr (w : ObjWorld) (i : Nat)
    (h1 : (getInst w i).hasObservers = true)
    (h2 : w.cls.refcount = some 1)
    (h3 : w.cls.patched = true) :
    ((removeObserversObj w i Option.none).1).cls.patched = false ∧
    ((removeObserversObj w i Option.none).1).cls.refcount = Option.none ∧
    ((removeObserversObj w i Option.none).1).cls.hasLock = w.cls.hasLock ∧
    (∀ (env : Env) (fuel : Nat) (j : Nat) (name : String) (v : PyVal),
      objSetAttr env fuel ((removeObserversObj w i Option.none).1) j name v
        = (plainSet ((removeObserversObj w i Option.none).1) j name v, [], false)) := by
  have ht := removeObserversObj_teardown w i h1 h2 h3
  exact ⟨ht.1, ht.2.1, ht.2.2,
    fun env fuel j name v => objSetAttr_unpatched env fuel _ j name v ht.1⟩

/-- C5 witness: observing then removing on a single instance restores plain
assignment for every instance while the lock attribute survives. -/
theorem claim_C5_witness :
    teardownWorld.cls.patched = false ∧
    teardownWorld.cls.refcount = Option.none ∧
    teardownWorld.cls.hasLock = (addObserverObj env0 playerWorld1 1 "hp" 10).cls.hasLock ∧
    objSetAttr env0 1 teardownWorld 1 "hp" (PyVal.int 9)
      = (plainSet teardownWorld 1 "hp" (PyVal.int 9), [], false) := by
  have h := claim_C5_teardown_restores_setattr
    (addObserverObj env0 playerWorld1 1 "hp" 10) 1 (by decide) (by decide) (by decide)
  exact ⟨h.1, h.2.1, h.2.2.1, h.2.2.2 env0 1 1 "hp" (PyVal.int 9)⟩

/-- C6: when an observer raises during the notification of a write to `K`,
the guard flag of `K` is still set in the resulting state (the clearing after
the loop is skipped, there being no try/finally), and a write to a key whose
guard is set applies the value silently with no notification — hence after
such an exception no observer of `K` ever fires again on that entity. -/
theorem claim_C6_exception_sticks_guard :
    (∀ (env : Env) (fuel : Nat) (d : ODict) (K : String) (V : PyVal),
      (odSetItem env fuel d K V).2.2 = true →
      alookup (odSetItem env fuel d K V).1.isObserving K = some true) ∧
    (∀ (env : Env) (fuel : Nat) (d : ODict) (K : String) (V : PyVal),
      alookup d.isObserving K = some true →
      odSetItem env fuel d K V = ({ d with data := aset d.data K V }, [], false)) ∧
    (∀ (env : Env) (fuel : Nat) (w : ObjWorld) (i : Nat) (K : String) (V : PyVal),
      (objSetAttr env fuel w i K V).2.2 = true →
      alookup (getInst (objSetAttr env fuel w i K V).1 i).isObserving K = some true) ∧
    (∀ (env : Env) (fuel : Nat) (w : ObjWorld) (i : Nat) (K : String) (V : PyVal),
      w.cls.patched = true → w.cls.hasLock = true →
      (getInst w i).hasIsObserving = true →
      alookup (getInst w i).isObserving K = some true →
      objSetAttr env fuel w i K V = (plainSet w i K V, [], false)) :=
  ⟨fun env fuel d K V h => odSetItem_exn_guard env fuel d K V h,
   fun env fuel d K V h => odSetItem_guarded env fuel d K V h,
   fun env fuel w i K V h => objSetAttr_exn_guard env fuel w i K V h,
   fun env fuel w i K V hp hl hio hg => objSetAttr_guarded env fuel w i K V hp hl hio hg⟩

/-- C6 witness: a raising callback leaves the guard of `k` (resp. `hp`) set;
a write against a set guard applies silently with no observer call. -/
theorem claim_C6_witness :
    alookup (odSetItem envRaise 1
        ⟨[], [("k", [ObserverRef.strong 0])], []⟩ "k" (PyVal.int 1)).1.isObserving "k"
      = some true ∧
    odSetItem envRaise 1
        ⟨[("k", PyVal.int 1)], [("k", [ObserverRef.strong 0])], [("k", true)]⟩ "k"
        (PyVal.int 2)
      = (⟨[("k", PyVal.int 2)], [("k", [ObserverRef.strong 0])], [("k", true)]⟩, [], false) ∧
    alookup (getInst (objSetAttr envRaise 1
        (addObserverObj envRaise playerWorld1 1 "hp" 0) 1 "hp"
        (PyVal.int 5)).1 1).isObserving "hp" = some true ∧
    objSetAttr envRaise 1
        ⟨⟨true, some 1, true⟩,
         [(1, ⟨[("hp", PyVal.int 5)], true, [("hp", [ObserverRef.strong 0])], true,
               [("hp", true)]⟩)]⟩ 1 "hp" (PyVal.int 6)
      = (plainSet
          ⟨⟨true, some 1, true⟩,
           [(1, ⟨[("hp", PyVal.int 5)], true, [("hp", [ObserverRef.strong 0])], true,
                 [("hp", true)]⟩)]⟩ 1 "hp" (PyVal.int 6), [], false) := by
  refine ⟨?_, ?_, ?_, ?_⟩
  · exact claim_C6_exception_sticks_guard.1 envRaise 1
      ⟨[], [("k", [ObserverRef.strong 0])], []⟩ "k" (PyVal.int 1) (by decide)
  · exact claim_C6_exception_sticks_guard.2.1 envRaise 1
      ⟨[("k", PyVal.int 1)], [("k", [ObserverRef.strong 0])], [("k", true)]⟩ "k"
      (PyVal.int 2) (by decide)
  · exact claim_C6_exception_sticks_guard.2.2.1 envRaise 1
      (addObserverObj envRaise playerWorld1 1 "hp" 0) 1 "hp" (PyVal.int 5) (by decide)
  · exact claim_C6_exception_sticks_guard.2.2.2 envRaise 1
      ⟨⟨true, some 1, true⟩,
       [(1, ⟨[("hp", PyVal.int 5)], true, [("hp", [ObserverRef.strong 0])], true,
             [("hp", true)]⟩)]⟩ 1 "hp" (PyVal.int 6)
      (by decide) (by decide) (by decide) (by decide)

/-- C7: a write to `K` fires the observers of the snapshot taken at fire
time, in registration order (dead weak methods skipped), even when callbacks
add or remove observers during the notification: the trace is a function of
the pre-write observer list alone, the write lands, nothing is raised and the
guard ends cleared — in both engines. -/
theorem claim_C7_snapshot_registration_order :
    (∀ (env : Env) (fuel : Nat) (d : ODict) (K : String) (V : PyVal),
      (alookup d.isObserving K).getD false = false →
      (∀ r ∈ (alookup d.observers K).getD [], regOnly (env.body (refId r)) = true) →
      (odSetItem env fuel d K V).2.1
        = aliveTrace env ((alookup d.data K).getD PyVal.none) V
            ((alookup d.observers K).getD []) ∧
      (odSetItem env fuel d K V).1.data = aset d.data K V ∧
      (odSetItem env fuel d K V).2.2 = false ∧
      (alookup (odSetItem env fuel d K V).1.isObserving K).getD false = false) ∧
    (∀ (env : Env) (fuel : Nat) (w : ObjWorld) (i : Nat) (K : String) (V : PyVal),
      w.cls.patched = true → w.cls.hasLock = true →
      (getInst w i).hasObservers = true → (getInst w i).hasIsObserving = true →
      (alookup (getInst w i).isObserving K).getD false = false →
      (∀ r ∈ (alookup (getInst w i).observers K).getD [],
          regOnly (env.body (refId r)) = true) →
      (objSetAttr env fuel w i K V).2.1
        = aliveTrace env ((alookup (getInst w i).attrs K).getD PyVal.none) V
            ((alookup (getInst w i).observers K).getD []) ∧
      (getInst (objSetAttr env fuel w i K V).1 i).attrs
        = aset (getInst w i).attrs K V ∧
      (objSetAttr env fuel w i K V).2.2 = false ∧
      (alookup (getInst (objSetAttr env fuel w i K V).1 i).isObserving K).getD false
        = false) := by
  constructor
  · intro env fuel d K V hg hreg
    have hh := odSetItem_regOnly env fuel d K V hg hreg
    exact ⟨hh.2.1, hh.1, hh.2.2.1, hh.2.2.2⟩
  · intro env fuel w i K V hp hl ho hio hg hreg
    have hh := objSetAttr_regOnly env fuel w i K V hp hl ho hio hg hreg
    exact ⟨hh.2.1, hh.1, hh.2.2.1, hh.2.2.2⟩

/-- C7 witness: two observers `[0, 1]` where `0` removes every observer of
the key during its own notification; both still fire, in order, for this
write. -/
theorem claim_C7_witness :
    (odSetItem envDel 1
        ⟨[], [("k", [ObserverRef.strong 0, ObserverRef.strong 1])], []⟩ "k"
        (PyVal.int 3)).2.1
      = [(0, PyVal.none, PyVal.int 3), (1, PyVal.none, PyVal.int 3)] ∧
    (objSetAttr envDel 1
        ⟨⟨true, some 1, true⟩,
         [(1, ⟨[], true, [("k", [ObserverRef.strong 0, ObserverRef.strong 1])], true,
               []⟩)]⟩ 1 "k" (PyVal.int 3)).2.1
      = [(0, PyVal.none, PyVal.int 3), (1, PyVal.none, PyVal.int 3)] := by
  constructor
  · exact (claim_C7_snapshot_registration_order.1 envDel 1
      ⟨[], [("k", [ObserverRef.strong 0, ObserverRef.strong 1])], []⟩ "k"
      (PyVal.int 3) (by decide) (by decide)).1
  · exact (claim_C7_snapshot_registration_order.2 envDel 1
      ⟨⟨true, some 1, true⟩,
       [(1, ⟨[], true, [("k", [ObserverRef.strong 0, ObserverRef.strong 1])], true,
             []⟩)]⟩ 1 "k" (PyVal.int 3) (by decide) (by decide) (by decide) (by decide)
      (by decide) (by decide)).1

/-- C8: observing a plain dict wraps it — `observe` returns a fresh
`ObservableDict` holding exactly the original entries with the callback
registered under `K` (the input dict itself is copied, not aliased, so it is
never mutated) — and a write through the wrapper fires the callback with the
wrap-time value and stores the new value in the wrapper. -/
theorem claim_C8_wrap_plain_dict (env : Env) (D : List (String × PyVal)) (K : String)
    (cb : Nat) (V : PyVal) (fuel : Nat)
    (ht : env.truthy cb = true) (hb : env.isBound cb = false)
    (hnop : env.body cb = CbAct.nop) :
    observe env (.plainDict D) K (some cb)
      = .registered (.obsDict ⟨D, [(K, [ObserverRef.strong cb])], []⟩) ∧
    (odSetItem env fuel ⟨D, [(K, [ObserverRef.strong cb])], []⟩ K V).2.1
      = [(cb, (alookup D K).getD PyVal.none, V)] ∧
    (odSetItem env fuel ⟨D, [(K, [ObserverRef.strong cb])], []⟩ K V).1.data
      = aset D K V ∧
    (odSetItem env fuel ⟨D, [(K, [ObserverRef.strong cb])], []⟩ K V).2.2 = false := by
  have hits := odSetItem_regOnly env fuel ⟨D, [(K, [ObserverRef.strong cb])], []⟩ K V
    (by simp [alookup])
    (by intro r hr
        simp [alookup] at hr
        subst hr
        simp [refId, hnop, regOnly])
  refine ⟨?_, ?_, hits.1, hits.2.2.1⟩
  · simp [observe, targetAdd, odAddObserver, obsAppend, alookup, normalizeCallback,
          hb, ht]
  · rw [hits.2.1]
    simp [alookup, aliveTrace]

/-- C8 witness: the spec's concrete scenario — `{a: 1}` wrapped, then `a = 2`
fires `(1, 2)` and the wrapper holds `a = 2`. -/
theorem claim_C8_witness :
    observe env0 (.plainDict [("a", PyVal.int 1)]) "a" (some 0)
      = .registered (.obsDict ⟨[("a", PyVal.int 1)], [("a", [ObserverRef.strong 0])], []⟩) ∧
    (odSetItem env0 1 ⟨[("a", PyVal.int 1)], [("a", [ObserverRef.strong 0])], []⟩ "a"
        (PyVal.int 2)).2.1 = [(0, PyVal.int 1, PyVal.int 2)] ∧
    (odSetItem env0 1 ⟨[("a", PyVal.int 1)], [("a", [ObserverRef.strong 0])], []⟩ "a"
        (PyVal.int 2)).1.data = [("a", PyVal.int 2)] := by
  have h := claim_C8_wrap_plain_dict env0 [("a", PyVal.int 1)] "a" 0 (PyVal.int 2) 1
    rfl rfl rfl
  exact ⟨h.1, h.2.1, h.2.2.1⟩

/-- C9: removing a callback that is not registered for `K` (neither as the
raw callable nor as its normalized weak form) returns `False` and changes
nothing: the dict (observer tables and guards) resp. the whole world
(instances, class counter and mutation routine) is returned unchanged. -/
theorem claim_C9_remove_missing_noop :
    (∀ (env : Env) (d : ODict) (K : String) (c : Nat),
      (∀ r ∈ (alookup d.observers K).getD [],
        rawEq c r = false ∧ refEq env r (normalizeCallback env c) = false) →
      odRemoveObserver env d K c = (d, false)) ∧
    (∀ (env : Env) (w : ObjWorld) (i : Nat) (K : String) (c : Nat),
      (∀ r ∈ (alookup (getInst w i).observers K).getD [],
        rawEq c r = false ∧ refEq env r (normalizeCallback env c) = false) →
      removeObserverObj env w i K c = (w, false)) :=
  ⟨fun env d K c h => odRemoveObserver_notfound env d K c h,
   fun env w i K c h => removeObserverObj_notfound env w i K c h⟩

/-- C9 witness: removing callback `7` where only `5` observes the key returns
`False` and leaves the entity untouched. -/
theorem claim_C9_witness :
    odRemoveObserver env0 ⟨[], [("k", [ObserverRef.strong 5])], []⟩ "k" 7
      = (⟨[], [("k", [ObserverRef.strong 5])], []⟩, false) ∧
    removeObserverObj env0
        ⟨⟨true, some 1, true⟩,
         [(1, ⟨[("hp", PyVal.int 1)], true, [("hp", [ObserverRef.strong 5])], true, []⟩)]⟩
        1 "hp" 7
      = (⟨⟨true, some 1, true⟩,
          [(1, ⟨[("hp", PyVal.int 1)], true, [("hp", [ObserverRef.strong 5])], true,
                []⟩)]⟩, false) := by
  constructor
  · exact claim_C9_remove_missing_noop.1 env0
      ⟨[], [("k", [ObserverRef.strong 5])], []⟩ "k" 7 (by decide)
  · exact claim_C9_remove_missing_noop.2 env0
      ⟨⟨true, some 1, true⟩,
       [(1, ⟨[("hp", PyVal.int 1)], true, [("hp", [ObserverRef.strong 5])], true, []⟩)]⟩
      1 "hp" 7 (by decide)

/-- C10: `observe` tests the callback with `if callback:` — truthiness, not
presence — so a supplied callable whose boolean conversion is false is not
registered, and the call returns exactly what it returns when the callback is
omitted: the registration decorator over the (possibly wrapped) entity. -/
theorem claim_C10_falsy_callback_returns_decorator (env : Env) (t : Target) (K : String)
    (c : Nat) (h : env.truthy c = false) :
    observe env t K (some c) = observe env t K Option.none := by
  cases t <;> simp [observe, h]

/-- C10 witness: with a falsy callable, `observe` on an object returns the
decorator, identical to the no-callback call. -/
theorem claim_C10_witness :
    observe envFalsy (.obj playerWorld1 1) "hp" (some 0)
      = observe envFalsy (.obj playerWorld1 1) "hp" Option.none :=
  claim_C10_falsy_callback_returns_decorator envFalsy (.obj playerWorld1 1) "hp" 0 rfl

end ObjObserve
